import Mathlib

/-!
# reef-sa: weather lookup and regional feed assembly

A shallow embedding of `internal/feeds/weather.go` and of the HTTP handlers of
`main.go`, together with the properties of the specification that concern them.

Conventions of the embedding

* A Go `string` is a sequence of bytes (`GoString`, bytes as natural numbers below 256).
  String constants of the source are written `GoString.lit "..."`, their UTF-8 bytes.
* A Go `float64` is its IEEE-754 binary64 bit pattern (`Float64`); comparisons and
  formatting are computed exactly from sign, exponent and fraction.
* A Go `map` is an association list with unique keys (`GoMap`).
* A Go `(*T, error)` result is a pair of options, `none` standing for `nil`.
* What the process reads from outside (the outbound HTTP call, the JSON decoder applied to
  the provider body, the clock, the feature flags) is a field of `Env`.
-/

set_option autoImplicit false

namespace ReefSA

deriving instance DecidableEq for Except

/-! ## Go strings -/

/-- A Go string: an immutable sequence of bytes. -/
abbrev GoString := List Nat

namespace utf8

/-- Go `utf8.AppendRune`: the UTF-8 bytes of a code point; surrogates and values above
U+10FFFF are written as U+FFFD. -/
def EncodeRune (r : Nat) : List Nat :=
  if r ≤ 0x7F then [r]
  else if r ≤ 0x7FF then [0xC0 + r / 64, 0x80 + r % 64]
  else if 0x10FFFF < r ∨ (0xD800 ≤ r ∧ r ≤ 0xDFFF) then [0xEF, 0xBF, 0xBD]
  else if r ≤ 0xFFFF then [0xE0 + r / 4096, 0x80 + (r / 64) % 64, 0x80 + r % 64]
  else [0xF0 + r / 262144, 0x80 + (r / 4096) % 64, 0x80 + (r / 64) % 64, 0x80 + r % 64]

end utf8

/-- The bytes of a string constant of the source (Go source text is UTF-8). -/
def GoString.lit (s : String) : GoString :=
  s.data.foldr (fun c acc => utf8.EncodeRune c.toNat ++ acc) []

/-! ## Go maps -/

/-- A Go map literal, as the list of its entries (keys unique). -/
abbrev GoMap (κ ν : Type) := List (κ × ν)

/-- The two-valued map read `v, ok := m[k]`: `some v` when `k` is a key, `none` when not. -/
def GoMap.get? {κ ν : Type} [DecidableEq κ] : GoMap κ ν → κ → Option ν
  | [], _ => none
  | (k', v) :: rest, k => if k = k' then some v else GoMap.get? rest k

/-- The one-valued map read `m[k]`: the zero value when `k` is not a key. -/
def GoMap.index {κ ν : Type} [DecidableEq κ] (m : GoMap κ ν) (k : κ) (zero : ν) : ν :=
  match m.get? k with
  | some v => v
  | none => zero

/-! ## float64 -/

/-- An IEEE-754 binary64 value, as its 64-bit pattern. -/
structure Float64 where
  bits : Nat
  isLt : bits < 2 ^ 64
  deriving DecidableEq

namespace Float64

/-- The float with the given bit pattern (reduced modulo 2^64). -/
def ofBits (n : Nat) : Float64 := ⟨n % 2 ^ 64, Nat.mod_lt _ (by decide)⟩

/-- Sign bit. -/
def signBit (f : Float64) : Bool := decide (2 ^ 63 ≤ f.bits)

/-- Biased exponent field (11 bits). -/
def expField (f : Float64) : Nat := (f.bits / 2 ^ 52) % 2 ^ 11

/-- Fraction field (52 bits). -/
def fracField (f : Float64) : Nat := f.bits % 2 ^ 52

/-- Go `math.IsNaN`. -/
def IsNaN (f : Float64) : Bool := f.expField == 2047 && f.fracField != 0

/-- Go `math.IsInf(f, 0)`. -/
def IsInf (f : Float64) : Bool := f.expField == 2047 && f.fracField == 0

/-- Significand with the hidden bit: the magnitude of `f` is `mant * 2 ^ exp2`. -/
def mant (f : Float64) : Nat :=
  if f.expField = 0 then f.fracField else 2 ^ 52 + f.fracField

/-- Binary exponent of the significand. -/
def exp2 (f : Float64) : Int :=
  (if f.expField = 0 then 1 else (f.expField : Int)) - 1075

/-- The exponent of the significand, biased: the magnitude is `mant * 2 ^ (expPos - 1075)`. -/
def expPos (f : Float64) : Nat := if f.expField = 0 then 1 else f.expField

/-- The signed value of a non-NaN float in units of `2 ^ (base - 1075)`, for a `base` not above
`expPos`: an exact integer (an infinity counts as the binade above every finite value). -/
def scaled (base : Nat) (f : Float64) : Int :=
  let m : Int := (f.mant * 2 ^ (f.expPos - base) : Nat)
  if f.signBit then -m else m

/-- Go `a < b` on float64: false when either side is NaN, otherwise the order of the exact
values, both written in the unit of the smaller exponent. -/
def lt (a b : Float64) : Bool :=
  !a.IsNaN && !b.IsNaN &&
    decide (a.scaled (min a.expPos b.expPos) < b.scaled (min a.expPos b.expPos))

/-- Go `a > b` on float64. -/
def gt (a b : Float64) : Bool := lt b a

/-- Go `a <= b` on float64: false when either side is NaN. -/
def le (a b : Float64) : Bool :=
  !a.IsNaN && !b.IsNaN &&
    decide (a.scaled (min a.expPos b.expPos) ≤ b.scaled (min a.expPos b.expPos))

/-- Go `a == b` on float64: NaN equals nothing, the two zeros are equal. -/
def eq (a b : Float64) : Bool :=
  !a.IsNaN && !b.IsNaN &&
    decide (a.scaled (min a.expPos b.expPos) = b.scaled (min a.expPos b.expPos))

/-- Quotient `a / b` rounded to the nearest integer, ties to even. -/
def roundHalfEven (a b : Nat) : Nat :=
  let q := a / b
  let r := a % b
  if b < 2 * r ∨ (2 * r = b ∧ q % 2 = 1) then q + 1 else q

/-- Number of binary digits of `n` (with `fuel ≥` that number). -/
def bitLen : Nat → Nat → Nat
  | 0, _ => 0
  | fuel + 1, n => if n = 0 then 0 else bitLen fuel (n / 2) + 1

/-- Conversion of the decimal constant `± num / 10 ^ scale` of the source to float64:
the nearest representable value, ties to even (Go constant conversion). -/
def ofDecimal (neg : Bool) (num scale : Nat) : Float64 :=
  if num = 0 then ofBits (if neg then 2 ^ 63 else 0) else
  let den := 10 ^ scale
  let e0 : Int := (bitLen num num : Int) - (bitLen den den : Int) - 53
  let frac (e : Int) : Nat × Nat :=
    if 0 ≤ e then (num, den * 2 ^ e.toNat) else (num * 2 ^ (-e).toNat, den)
  let fits (e : Int) : Bool := decide ((frac e).1 / (frac e).2 < 2 ^ 53)
  let e1 : Int := if fits e0 then e0 else if fits (e0 + 1) then e0 + 1 else e0 + 2
  let e : Int := max e1 (-1074)
  let m0 := roundHalfEven (frac e).1 (frac e).2
  let m := if m0 = 2 ^ 53 then 2 ^ 52 else m0
  let e := if m0 = 2 ^ 53 then e + 1 else e
  let s := if neg then 2 ^ 63 else 0
  if m < 2 ^ 52 then ofBits (s + m)
  else if 2046 < e + 1075 then ofBits (s + 2047 * 2 ^ 52)
  else ofBits (s + (e + 1075).toNat * 2 ^ 52 + (m - 2 ^ 52))

/-- The float64 zero value, `+0`. -/
def zero : Float64 := ofBits 0

end Float64

/-! ## fmt -/

namespace fmt

/-- Decimal digits of a natural number, as ASCII bytes. -/
def natDigits (n : Nat) : List Nat := (Nat.toDigits 10 n).map Char.toNat

/-- Left padding with ASCII zeros up to `width`. -/
def padZeros (width : Nat) (ds : List Nat) : List Nat :=
  List.replicate (width - ds.length) 48 ++ ds

/-- The verb `%.<prec>f` applied to a float64: sign, integer digits, and `prec` fraction
digits of the exact value rounded to nearest, ties to even. -/
def fixed (prec : Nat) (f : Float64) : GoString :=
  if f.IsNaN then GoString.lit "NaN"
  else if f.IsInf then (if f.signBit then GoString.lit "-Inf" else GoString.lit "+Inf")
  else
    let n : Nat :=
      if 0 ≤ f.exp2 then f.mant * 2 ^ f.exp2.toNat * 10 ^ prec
      else Float64.roundHalfEven (f.mant * 10 ^ prec) (2 ^ (-f.exp2).toNat)
    (if f.signBit then GoString.lit "-" else []) ++ natDigits (n / 10 ^ prec) ++
      (if prec = 0 then [] else GoString.lit "." ++ padZeros prec (natDigits (n % 10 ^ prec)))

/-- The verb `%d` applied to an int. -/
def int (i : Int) : GoString :=
  (if i < 0 then GoString.lit "-" else []) ++ natDigits i.natAbs

end fmt

/-! ## internal/feeds/weather.go -/

/-- WeatherData represents weather information. -/
structure WeatherData where
  Summary : GoString
  TemperatureC : Float64
  FeelsLikeC : Float64
  deriving DecidableEq

/-- Coordinates represents latitude and longitude. -/
structure Coordinates where
  Lat : Float64
  Lon : Float64
  deriving DecidableEq

/-- The zero value of `Coordinates`. -/
def Coordinates.zero : Coordinates := ⟨Float64.zero, Float64.zero⟩

/-- OpenMeteoResponse: the `current` object of the provider response. -/
structure OpenMeteoResponse where
  Temperature : Float64
  ApparentTemperature : Float64
  WeatherCode : Int
  deriving DecidableEq

/-- South America country coordinates (major cities). -/
def saCountryCoordinates : GoMap GoString Coordinates :=
  [ (GoString.lit "BR", ⟨Float64.ofDecimal true 235505 4, Float64.ofDecimal true 466333 4⟩),
    (GoString.lit "AR", ⟨Float64.ofDecimal true 346037 4, Float64.ofDecimal true 583816 4⟩),
    (GoString.lit "CL", ⟨Float64.ofDecimal true 334489 4, Float64.ofDecimal true 706693 4⟩),
    (GoString.lit "PE", ⟨Float64.ofDecimal true 120464 4, Float64.ofDecimal true 770428 4⟩),
    (GoString.lit "CO", ⟨Float64.ofDecimal false 47110 4, Float64.ofDecimal true 740721 4⟩),
    (GoString.lit "VE", ⟨Float64.ofDecimal false 104806 4, Float64.ofDecimal true 669036 4⟩),
    (GoString.lit "EC", ⟨Float64.ofDecimal true 1807 4, Float64.ofDecimal true 784678 4⟩),
    (GoString.lit "UY", ⟨Float64.ofDecimal true 349011 4, Float64.ofDecimal true 561645 4⟩),
    (GoString.lit "PY", ⟨Float64.ofDecimal true 252637 4, Float64.ofDecimal true 575759 4⟩),
    (GoString.lit "BO", ⟨Float64.ofDecimal true 165000 4, Float64.ofDecimal true 681500 4⟩) ]

/-- Weather code to description mapping (WMO weather interpretation codes). -/
def weatherCodeDescriptions : GoMap Int GoString :=
  [ (0, GoString.lit "Clear sky"),
    (1, GoString.lit "Mainly clear"),
    (2, GoString.lit "Partly cloudy"),
    (3, GoString.lit "Overcast"),
    (45, GoString.lit "Foggy"),
    (48, GoString.lit "Depositing rime fog"),
    (51, GoString.lit "Light drizzle"),
    (53, GoString.lit "Moderate drizzle"),
    (55, GoString.lit "Dense drizzle"),
    (61, GoString.lit "Slight rain"),
    (63, GoString.lit "Moderate rain"),
    (65, GoString.lit "Heavy rain"),
    (71, GoString.lit "Slight snow"),
    (73, GoString.lit "Moderate snow"),
    (75, GoString.lit "Heavy snow"),
    (77, GoString.lit "Snow grains"),
    (80, GoString.lit "Slight rain showers"),
    (81, GoString.lit "Moderate rain showers"),
    (82, GoString.lit "Violent rain showers"),
    (85, GoString.lit "Slight snow showers"),
    (86, GoString.lit "Heavy snow showers"),
    (95, GoString.lit "Thunderstorm"),
    (96, GoString.lit "Thunderstorm with slight hail"),
    (99, GoString.lit "Thunderstorm with heavy hail") ]

/-- The answer of the provider to a GET, as far as `FetchWeather` reads it. -/
structure HTTPResponse where
  StatusCode : Int
  Body : GoString
  deriving DecidableEq

/-- What the process reads from outside. -/
structure Env where
  /-- The outcome of `client.Get(url)`: a transport error (its message) or a response. -/
  Get : GoString → Except GoString HTTPResponse
  /-- The outcome of `json.NewDecoder(body).Decode(&apiResp)`: an error (its message) or the
  decoded value. -/
  Decode : GoString → Except GoString OpenMeteoResponse
  /-- The successive readings of `time.Now()` during one request, in nanoseconds. -/
  Now : Nat → Int
  /-- The rendering `t.Format(time.RFC3339)` of an instant. -/
  FormatRFC3339 : Int → GoString
  /-- The value of `featureflags.Values().Offline.IsEnabled(nil)`. -/
  Offline : Bool
  /-- The value of `featureflags.Values().LogLevel.GetValue(nil)`. -/
  LogLevel : GoString

/-- The coordinates `FetchWeather` queries for `country` (weather.go, lines 77 to 81). -/
def FetchWeather.coords (country : GoString) : Coordinates :=
  match saCountryCoordinates.get? country with
  | some coords => coords
  | none => saCountryCoordinates.index (GoString.lit "BR") Coordinates.zero

/-- The Open-Meteo URL for a pair of coordinates (weather.go, lines 84 to 87). -/
def FetchWeather.url (coords : Coordinates) : GoString :=
  GoString.lit "https://api.open-meteo.com/v1/forecast?latitude=" ++ fmt.fixed 4 coords.Lat ++
    GoString.lit "&longitude=" ++ fmt.fixed 4 coords.Lon ++
    GoString.lit "&current=temperature_2m,apparent_temperature,weather_code"

/-- The description of a weather code (weather.go, lines 112 to 115). -/
def FetchWeather.description (code : Int) : GoString :=
  match weatherCodeDescriptions.get? code with
  | some description => description
  | none => GoString.lit "Unknown"

/-- What a call of `FetchWeather` returns and does. -/
structure FetchResult where
  /-- The returned `*WeatherData`, `none` for nil. -/
  data : Option WeatherData
  /-- The returned `error` (its message), `none` for nil. -/
  err : Option GoString
  /-- The URLs of the GET requests issued, in order. -/
  calls : List GoString
  deriving DecidableEq

/-- FetchWeather fetches weather data for a given country using the Open-Meteo API. -/
def FetchWeather (env : Env) (country : GoString) : FetchResult :=
  let coords := FetchWeather.coords country
  let url := FetchWeather.url coords
  match env.Get url with
  | .error err =>
    ⟨none, some (GoString.lit "weather API call failed: " ++ err), [url]⟩
  | .ok resp =>
    if resp.StatusCode ≠ 200 then
      ⟨none, some (GoString.lit "weather API returned status " ++ fmt.int resp.StatusCode), [url]⟩
    else
      match env.Decode resp.Body with
      | .error err =>
        ⟨none, some (GoString.lit "failed to parse weather response: " ++ err), [url]⟩
      | .ok apiResp =>
        ⟨some ⟨FetchWeather.description apiResp.WeatherCode, apiResp.Temperature,
            apiResp.ApparentTemperature⟩, none, [url]⟩

/-! ### The coordinate checks of `weather_test.go` -/

/-- The check of `TestAllCountriesHaveValidCoordinates`: neither `Lat < -90`, `Lat > 90`,
`Lon < -180` nor `Lon > 180`. -/
def Coordinates.valid (c : Coordinates) : Bool :=
  !(Float64.lt c.Lat (Float64.ofDecimal true 90 0) || Float64.gt c.Lat (Float64.ofDecimal false 90 0)) &&
  !(Float64.lt c.Lon (Float64.ofDecimal true 180 0) || Float64.gt c.Lon (Float64.ofDecimal false 180 0))

/-- The check of `TestAllSACountriesHaveReasonableCoordinates`: neither `Lat < -60`,
`Lat > 15`, `Lon < -80` nor `Lon > -35`. -/
def Coordinates.inSouthAmerica (c : Coordinates) : Bool :=
  !(Float64.lt c.Lat (Float64.ofDecimal true 60 0) || Float64.gt c.Lat (Float64.ofDecimal false 15 0)) &&
  !(Float64.lt c.Lon (Float64.ofDecimal true 80 0) || Float64.gt c.Lon (Float64.ofDecimal true 35 0))

/-! ## unicode/utf8 -/

namespace utf8

/-- Go `utf8.RuneError`, U+FFFD. -/
def RuneError : Nat := 0xFFFD

/-- The range the second byte of a sequence must lie in, by first byte (Go `acceptRanges`
through the table `first`); `none` for a byte that cannot start a multi-byte sequence. -/
def accept (s0 : Nat) : Option (Nat × Nat × Nat) :=
  if 0xC2 ≤ s0 ∧ s0 ≤ 0xDF then some (2, 0x80, 0xBF)
  else if s0 = 0xE0 then some (3, 0xA0, 0xBF)
  else if 0xE1 ≤ s0 ∧ s0 ≤ 0xEC then some (3, 0x80, 0xBF)
  else if s0 = 0xED then some (3, 0x80, 0x9F)
  else if 0xEE ≤ s0 ∧ s0 ≤ 0xEF then some (3, 0x80, 0xBF)
  else if s0 = 0xF0 then some (4, 0x90, 0xBF)
  else if 0xF1 ≤ s0 ∧ s0 ≤ 0xF3 then some (4, 0x80, 0xBF)
  else if s0 = 0xF4 then some (4, 0x80, 0x8F)
  else none

/-- A continuation byte, 0x80 to 0xBF. -/
def isCont (b : Nat) : Bool := decide (0x80 ≤ b ∧ b ≤ 0xBF)

/-- Go `utf8.DecodeRuneInString`: the first rune of `s` and its width in bytes;
`(RuneError, 0)` for the empty string, `(RuneError, 1)` for an invalid encoding. -/
def DecodeRune : GoString → Nat × Nat
  | [] => (RuneError, 0)
  | s0 :: rest =>
    if s0 < 0x80 then (s0, 1)
    else match accept s0 with
      | none => (RuneError, 1)
      | some (sz, lo, hi) =>
        match rest with
        | [] => (RuneError, 1)
        | s1 :: rest1 =>
          if rest.length + 1 < sz then (RuneError, 1)
          else if s1 < lo ∨ hi < s1 then (RuneError, 1)
          else if sz ≤ 2 then ((s0 % 32) * 64 + s1 % 64, 2)
          else match rest1 with
            | [] => (RuneError, 1)
            | s2 :: rest2 =>
              if !isCont s2 then (RuneError, 1)
              else if sz ≤ 3 then ((s0 % 16) * 4096 + (s1 % 64) * 64 + s2 % 64, 3)
              else match rest2 with
                | [] => (RuneError, 1)
                | s3 :: _ =>
                  if !isCont s3 then (RuneError, 1)
                  else ((s0 % 8) * 262144 + (s1 % 64) * 4096 + (s2 % 64) * 64 + s3 % 64, 4)

/-- Go `utf8.ValidString`, by decoding rune after rune: no step meets an invalid encoding.
The first argument bounds the number of steps; the length of the string is enough. -/
def validFrom : Nat → GoString → Bool
  | _, [] => true
  | 0, _ :: _ => false
  | fuel + 1, b :: rest =>
    if (DecodeRune (b :: rest)).1 = RuneError ∧ (DecodeRune (b :: rest)).2 = 1 then false
    else validFrom fuel ((b :: rest).drop (DecodeRune (b :: rest)).2)

/-- Go `utf8.ValidString`. -/
def ValidString (s : GoString) : Bool := validFrom s.length s

end utf8

/-! ## encoding/json

The package belongs to the Go standard library. Its definitions here follow its documented
behaviour on the struct types of this program: fields are named by their struct tags, an
`omitempty` field is left out when it is a nil pointer or a slice of length 0, strings are
coerced to valid UTF-8, NaN and the infinities are unsupported values, object keys are
matched to fields by exact name and otherwise by case-folded name, unknown keys are skipped,
`null` leaves a string or number as it is and sets a pointer or slice to nil.

The text layer of the package (rendering a JSON value as bytes, and parsing bytes into a JSON
value) is not part of the embedding: `Marshal` yields a JSON value and `Unmarshal` reads one.
A string node holds the string the JSON text denotes, a number node the float64 it denotes. -/

/-- A JSON value. -/
inductive JSON where
  | null
  | bool (b : Bool)
  | number (f : Float64)
  | string (s : GoString)
  | array (items : List JSON)
  | object (members : List (GoString × JSON))

/-- A Go slice: `none` is the nil slice, `some []` an empty slice that is not nil. -/
abbrev GoSlice (α : Type) := Option (List α)

/-- The elements of a slice. -/
def GoSlice.items {α : Type} (s : GoSlice α) : List α := s.getD []

/-- Go `len(s)`. -/
def GoSlice.len {α : Type} (s : GoSlice α) : Nat := s.items.length

namespace json

/-- The string a marshalled Go string denotes: the same bytes, each byte that is not part of
a valid UTF-8 encoding replaced by U+FFFD ("coerced to valid UTF-8"). The first argument
bounds the number of steps; the length of the string is enough. -/
def coerceFrom : Nat → GoString → GoString
  | _, [] => []
  | 0, _ :: _ => []
  | fuel + 1, b :: rest =>
    if b < 0x80 then b :: coerceFrom fuel rest
    else if (utf8.DecodeRune (b :: rest)).1 = utf8.RuneError ∧ (utf8.DecodeRune (b :: rest)).2 = 1 then
      utf8.EncodeRune utf8.RuneError ++ coerceFrom fuel rest
    else
      (b :: rest).take (utf8.DecodeRune (b :: rest)).2 ++
        coerceFrom fuel ((b :: rest).drop (utf8.DecodeRune (b :: rest)).2)

/-- Marshalling of a Go string. -/
def marshalString (s : GoString) : JSON := .string (coerceFrom s.length s)

/-- Marshalling of a float64: NaN and the infinities are an `UnsupportedValueError`. -/
def marshalFloat (f : Float64) : Except GoString JSON :=
  if f.IsNaN then .error (GoString.lit "json: unsupported value: NaN")
  else if f.IsInf then
    .error (GoString.lit "json: unsupported value: " ++
      (if f.signBit then GoString.lit "-Inf" else GoString.lit "+Inf"))
  else .ok (.number f)

/-- Unmarshalling into a string: `null` leaves the destination as it is. -/
def unmarshalString (dst : GoString) : JSON → Except GoString GoString
  | .null => .ok dst
  | .string s => .ok s
  | _ => .error (GoString.lit "json: cannot unmarshal into Go value of type string")

/-- Unmarshalling into a float64: `null` leaves the destination as it is. -/
def unmarshalFloat (dst : Float64) : JSON → Except GoString Float64
  | .null => .ok dst
  | .number f => .ok f
  | _ => .error (GoString.lit "json: cannot unmarshal into Go value of type float64")

/-- The struct field an object key is decoded into: the field whose JSON name is the key,
otherwise the first field whose name equals the key after case folding (`fold` is the
package's `foldName`). -/
def matchField (fold : GoString → GoString) (names : List GoString) (key : GoString) :
    Option Nat :=
  match names.indexOf? key with
  | some i => some i
  | none => (names.map fold).indexOf? (fold key)

end json

/-! ## main.go: the response types and their JSON form -/

/-- NewsItem represents a single news article. -/
structure NewsItem where
  ID : GoString
  Title : GoString
  Source : GoString
  URL : GoString
  PublishedAt : GoString
  deriving DecidableEq

/-- RegionalFeedResponse represents the response structure. -/
structure RegionalFeedResponse where
  Region : GoString
  Country : GoString
  /-- The field `*feeds.WeatherData`, `none` for nil. -/
  Weather : Option WeatherData
  News : GoSlice NewsItem
  deriving DecidableEq

/-- The zero value of `WeatherData`. -/
def WeatherData.zero : WeatherData := ⟨[], Float64.zero, Float64.zero⟩

/-- The zero value of `NewsItem`. -/
def NewsItem.zero : NewsItem := ⟨[], [], [], [], []⟩

/-- The zero value of `RegionalFeedResponse`. -/
def RegionalFeedResponse.zero : RegionalFeedResponse := ⟨[], [], none, none⟩

namespace json

/-- The JSON names of the fields of `WeatherData`, from its struct tags. -/
def weatherDataFields : List GoString :=
  [GoString.lit "summary", GoString.lit "temperatureC", GoString.lit "feelsLikeC"]

/-- The JSON names of the fields of `NewsItem`, from its struct tags. -/
def newsItemFields : List GoString :=
  [GoString.lit "id", GoString.lit "title", GoString.lit "source", GoString.lit "url",
    GoString.lit "publishedAt"]

/-- The JSON names of the fields of `RegionalFeedResponse`, from its struct tags. -/
def regionalFeedResponseFields : List GoString :=
  [GoString.lit "region", GoString.lit "country", GoString.lit "weather", GoString.lit "news"]

/-- `json.Marshal` of a `WeatherData`. -/
def marshalWeatherData (w : WeatherData) : Except GoString JSON :=
  match marshalFloat w.TemperatureC with
  | .error e => .error e
  | .ok t =>
    match marshalFloat w.FeelsLikeC with
    | .error e => .error e
    | .ok f =>
      .ok (.object [(GoString.lit "summary", marshalString w.Summary),
        (GoString.lit "temperatureC", t), (GoString.lit "feelsLikeC", f)])

/-- `json.Marshal` of a `NewsItem`. -/
def marshalNewsItem (n : NewsItem) : JSON :=
  .object [(GoString.lit "id", marshalString n.ID), (GoString.lit "title", marshalString n.Title),
    (GoString.lit "source", marshalString n.Source), (GoString.lit "url", marshalString n.URL),
    (GoString.lit "publishedAt", marshalString n.PublishedAt)]

/-- `json.Marshal` of a `RegionalFeedResponse`: `weather` is left out when the pointer is nil,
`news` when the slice has length 0 (`omitempty`). -/
def marshalRegionalFeedResponse (r : RegionalFeedResponse) : Except GoString JSON :=
  let news : List (GoString × JSON) :=
    if r.News.len = 0 then []
    else [(GoString.lit "news", .array (r.News.items.map marshalNewsItem))]
  match r.Weather with
  | none =>
    .ok (.object ([(GoString.lit "region", marshalString r.Region),
      (GoString.lit "country", marshalString r.Country)] ++ news))
  | some w =>
    match marshalWeatherData w with
    | .error e => .error e
    | .ok jw =>
      .ok (.object ([(GoString.lit "region", marshalString r.Region),
        (GoString.lit "country", marshalString r.Country), (GoString.lit "weather", jw)] ++ news))

/-- Decoding of one object member into a `WeatherData`; a key that matches no field is
skipped. -/
def weatherDataMember (fold : GoString → GoString) (dst : WeatherData)
    (member : GoString × JSON) : Except GoString WeatherData :=
  match matchField fold weatherDataFields member.1 with
  | some 0 => (unmarshalString dst.Summary member.2).map (fun s => { dst with Summary := s })
  | some 1 => (unmarshalFloat dst.TemperatureC member.2).map (fun f => { dst with TemperatureC := f })
  | some 2 => (unmarshalFloat dst.FeelsLikeC member.2).map (fun f => { dst with FeelsLikeC := f })
  | _ => .ok dst

/-- Decoding of the members of an object, in order, into a destination. -/
def decodeMembers {α : Type} (step : α → GoString × JSON → Except GoString α) :
    α → List (GoString × JSON) → Except GoString α
  | dst, [] => .ok dst
  | dst, member :: rest =>
    match step dst member with
    | .error e => .error e
    | .ok dst' => decodeMembers step dst' rest

/-- `json.Unmarshal` into a `WeatherData` holding `dst`. -/
def unmarshalWeatherData (fold : GoString → GoString) (dst : WeatherData) :
    JSON → Except GoString WeatherData
  | .null => .ok dst
  | .object members => decodeMembers (weatherDataMember fold) dst members
  | _ => .error (GoString.lit "json: cannot unmarshal into Go value of type feeds.WeatherData")

/-- Decoding of one object member into a `NewsItem`. -/
def newsItemMember (fold : GoString → GoString) (dst : NewsItem)
    (member : GoString × JSON) : Except GoString NewsItem :=
  match matchField fold newsItemFields member.1 with
  | some 0 => (unmarshalString dst.ID member.2).map (fun s => { dst with ID := s })
  | some 1 => (unmarshalString dst.Title member.2).map (fun s => { dst with Title := s })
  | some 2 => (unmarshalString dst.Source member.2).map (fun s => { dst with Source := s })
  | some 3 => (unmarshalString dst.URL member.2).map (fun s => { dst with URL := s })
  | some 4 => (unmarshalString dst.PublishedAt member.2).map (fun s => { dst with PublishedAt := s })
  | _ => .ok dst

/-- `json.Unmarshal` into a `NewsItem` holding `dst`. -/
def unmarshalNewsItem (fold : GoString → GoString) (dst : NewsItem) :
    JSON → Except GoString NewsItem
  | .null => .ok dst
  | .object members => decodeMembers (newsItemMember fold) dst members
  | _ => .error (GoString.lit "json: cannot unmarshal into Go value of type main.NewsItem")

/-- Decoding of the elements of an array, each into a fresh element. -/
def unmarshalNewsItems (fold : GoString → GoString) : List JSON → Except GoString (List NewsItem)
  | [] => .ok []
  | item :: rest =>
    match unmarshalNewsItem fold NewsItem.zero item with
    | .error e => .error e
    | .ok n =>
      match unmarshalNewsItems fold rest with
      | .error e => .error e
      | .ok ns => .ok (n :: ns)

/-- Decoding of one object member into a `RegionalFeedResponse`. For `weather`, `null` sets
the pointer to nil and an object is decoded into the value pointed to (a fresh one when the
pointer is nil); for `news`, `null` sets the slice to nil and an array replaces it. -/
def regionalFeedResponseMember (fold : GoString → GoString) (dst : RegionalFeedResponse)
    (member : GoString × JSON) : Except GoString RegionalFeedResponse :=
  match matchField fold regionalFeedResponseFields member.1 with
  | some 0 => (unmarshalString dst.Region member.2).map (fun s => { dst with Region := s })
  | some 1 => (unmarshalString dst.Country member.2).map (fun s => { dst with Country := s })
  | some 2 =>
    match member.2 with
    | .null => .ok { dst with Weather := none }
    | v => (unmarshalWeatherData fold (dst.Weather.getD WeatherData.zero) v).map
        (fun w => { dst with Weather := some w })
  | some 3 =>
    match member.2 with
    | .null => .ok { dst with News := none }
    | .array items => (unmarshalNewsItems fold items).map (fun ns => { dst with News := some ns })
    | _ => .error (GoString.lit "json: cannot unmarshal into Go value of type []main.NewsItem")
  | _ => .ok dst

/-- `json.Unmarshal` into a `RegionalFeedResponse` holding `dst`. -/
def unmarshalRegionalFeedResponse (fold : GoString → GoString) (dst : RegionalFeedResponse) :
    JSON → Except GoString RegionalFeedResponse
  | .null => .ok dst
  | .object members => decodeMembers (regionalFeedResponseMember fold) dst members
  | _ => .error (GoString.lit "json: cannot unmarshal into Go value of type main.RegionalFeedResponse")

/-- Marshal a `WeatherData`, then unmarshal the result into a zero `WeatherData`, as
`TestWeatherDataSerialization` does. -/
def roundTripWeatherData (fold : GoString → GoString) (w : WeatherData) :
    Except GoString WeatherData :=
  match marshalWeatherData w with
  | .error e => .error e
  | .ok v => unmarshalWeatherData fold WeatherData.zero v

/-- Marshal a `RegionalFeedResponse`, then unmarshal the result into a zero
`RegionalFeedResponse`, as `TestRegionalFeedResponseSerialization` does. -/
def roundTripRegionalFeedResponse (fold : GoString → GoString) (r : RegionalFeedResponse) :
    Except GoString RegionalFeedResponse :=
  match marshalRegionalFeedResponse r with
  | .error e => .error e
  | .ok v => unmarshalRegionalFeedResponse fold RegionalFeedResponse.zero v

end json

/-- Field-for-field equality of two `WeatherData`, floats compared with `==`. -/
def WeatherData.fieldEq (a b : WeatherData) : Bool :=
  decide (a.Summary = b.Summary) && Float64.eq a.TemperatureC b.TemperatureC &&
    Float64.eq a.FeelsLikeC b.FeelsLikeC

/-- Field-for-field equality of two `RegionalFeedResponse`: regions, countries, weather (both
nil, or both set and equal field for field) and news (same length, same items in the same
order). -/
def RegionalFeedResponse.fieldEq (a b : RegionalFeedResponse) : Bool :=
  decide (a.Region = b.Region) && decide (a.Country = b.Country) &&
    (match a.Weather, b.Weather with
      | none, none => true
      | some x, some y => x.fieldEq y
      | _, _ => false) &&
    decide (a.News.len = b.News.len) && decide (a.News.items = b.News.items)

/-- Neither NaN nor an infinity. -/
def Float64.isFinite (f : Float64) : Bool := !f.IsNaN && !f.IsInf

/-- The strings of the record are valid UTF-8 and its floats are finite. -/
def WeatherData.textAndFinite (w : WeatherData) : Bool :=
  utf8.ValidString w.Summary && w.TemperatureC.isFinite && w.FeelsLikeC.isFinite

/-- The strings of the item are valid UTF-8. -/
def NewsItem.text (n : NewsItem) : Bool :=
  utf8.ValidString n.ID && utf8.ValidString n.Title && utf8.ValidString n.Source &&
    utf8.ValidString n.URL && utf8.ValidString n.PublishedAt

/-- The strings of the response, of its weather record and of its news items are valid UTF-8,
and the floats of its weather record are finite. -/
def RegionalFeedResponse.textAndFinite (r : RegionalFeedResponse) : Bool :=
  utf8.ValidString r.Region && utf8.ValidString r.Country &&
    (match r.Weather with
      | none => true
      | some w => w.textAndFinite) &&
    r.News.items.all NewsItem.text

/-- The case folding of names made of ASCII bytes: lower-case letters to upper case. (On
other runes the package applies Unicode simple folding, which is left out here.) -/
def json.foldASCII (name : GoString) : GoString :=
  name.map (fun b => if 97 ≤ b ∧ b ≤ 122 then b - 32 else b)

/-! ## time -/

namespace time

/-- Go `time.Hour`, in nanoseconds. -/
def Hour : Int := 3600000000000

/-- Go `t.Add(d)` on an instant in nanoseconds. -/
def Add (t d : Int) : Int := t + d

/-- Calendar date (year, month, day) of a day count since 1970-01-01, in the proleptic
Gregorian calendar. -/
def civil (days : Int) : Int × Int × Int :=
  let z := days + 719468
  let era := z / 146097
  let doe := z - era * 146097
  let yoe := (doe - doe / 1460 + doe / 36524 - doe / 146096) / 365
  let doy := doe - (365 * yoe + yoe / 4 - yoe / 100)
  let mp := (5 * doy + 2) / 153
  let d := doy - (153 * mp + 2) / 5 + 1
  let m := if mp < 10 then mp + 3 else mp - 9
  (yoe + era * 400 + (if m ≤ 2 then 1 else 0), m, d)

/-- A rendering for the sample environments: `t.Format(time.RFC3339)` for instants held in
UTC, in years 0 to 9999 (`2006-01-02T15:04:05Z`). -/
def formatRFC3339UTC (t : Int) : GoString :=
  let secs := t / 1000000000
  let date := civil (secs / 86400)
  let sod := secs % 86400
  fmt.padZeros 4 (fmt.natDigits date.1.toNat) ++ GoString.lit "-" ++
    fmt.padZeros 2 (fmt.natDigits date.2.1.toNat) ++ GoString.lit "-" ++
    fmt.padZeros 2 (fmt.natDigits date.2.2.toNat) ++ GoString.lit "T" ++
    fmt.padZeros 2 (fmt.natDigits (sod / 3600).toNat) ++ GoString.lit ":" ++
    fmt.padZeros 2 (fmt.natDigits (sod % 3600 / 60).toNat) ++ GoString.lit ":" ++
    fmt.padZeros 2 (fmt.natDigits (sod % 60).toNat) ++ GoString.lit "Z"

end time

/-! ## net/http -/

/-- One write to the body of a response: raw bytes, or the JSON text of a value followed by
a newline (what `json.Encoder.Encode` writes). -/
inductive Chunk where
  | bytes (b : GoString)
  | json (v : JSON)

/-- The state of an `http.ResponseWriter`. -/
structure ResponseWriter where
  header : GoMap GoString GoString
  /-- The status code written, `none` as long as no header has been written. -/
  status : Option Int
  body : List Chunk

namespace ResponseWriter

/-- The writer a handler receives. -/
def fresh : ResponseWriter := ⟨[], none, []⟩

/-- Go `w.Header().Del(key)`. -/
def DelHeader (w : ResponseWriter) (key : GoString) : ResponseWriter :=
  { w with header := w.header.filter (fun kv => kv.1 ≠ key) }

/-- Go `w.Header().Set(key, value)`. -/
def SetHeader (w : ResponseWriter) (key value : GoString) : ResponseWriter :=
  { w with header := w.header.filter (fun kv => kv.1 ≠ key) ++ [(key, value)] }

/-- Go `w.WriteHeader(code)`: only the first call sets the status. -/
def WriteHeader (w : ResponseWriter) (code : Int) : ResponseWriter :=
  match w.status with
  | some _ => w
  | none => { w with status := some code }

/-- Go `w.Write(b)`: writes the header with status 200 when none was written yet. -/
def Write (w : ResponseWriter) (c : Chunk) : ResponseWriter :=
  { w.WriteHeader 200 with body := (w.WriteHeader 200).body ++ [c] }

/-- The bytes of the body when every write was of raw bytes. -/
def bodyBytes (w : ResponseWriter) : Option GoString :=
  w.body.foldr (fun c acc =>
    match c, acc with
    | .bytes b, some rest => some (b ++ rest)
    | _, _ => none) (some [])

end ResponseWriter

namespace http

/-- Go `http.Error(w, error, code)`. -/
def Error (w : ResponseWriter) (error : GoString) (code : Int) : ResponseWriter :=
  ((((w.DelHeader (GoString.lit "Content-Length")).SetHeader (GoString.lit "Content-Type")
    (GoString.lit "text/plain; charset=utf-8")).SetHeader (GoString.lit "X-Content-Type-Options")
    (GoString.lit "nosniff")).WriteHeader code).Write (.bytes (error ++ GoString.lit "\n"))

end http

/-- An incoming request, as far as the handlers read it. -/
structure Request where
  Method : GoString
  /-- The field `r.URL.Path`. -/
  Path : GoString
  /-- The parsed query `r.URL.Query()`. -/
  Query : GoMap GoString (List GoString)

/-- Go `url.Values.Get`: the first value of the key, the empty string when there is none. -/
def Request.QueryGet (r : Request) (key : GoString) : GoString :=
  match r.Query.get? key with
  | some (v :: _) => v
  | _ => []

/-- A call of the levelled logger. -/
structure LogEntry where
  level : GoString
  message : GoString
  deriving DecidableEq

/-- What a handler has done so far: the response writer, the logger calls and the outbound
GET requests. -/
structure Exchange where
  w : ResponseWriter
  log : List LogEntry
  calls : List GoString

/-- The exchange at the start of a request. -/
def Exchange.fresh : Exchange := ⟨ResponseWriter.fresh, [], []⟩

/-- A call `logger.Infof`, `logger.Warnf` or `logger.Errorf` with the formatted message. -/
def Exchange.logf (x : Exchange) (level message : GoString) : Exchange :=
  { x with log := x.log ++ [⟨level, message⟩] }

/-- An `http.Handler`. -/
abbrev Handler := Request → Exchange → Exchange

/-! ## main.go: middleware and handlers -/

/-- Offline kill-switch middleware (main.go, lines 69 to 83). -/
def offlineGate (env : Env) (next : Handler) : Handler := fun r x =>
  if r.Path = GoString.lit "/health" ∨ r.Path = GoString.lit "/ready" then
    next r x
  else if env.Offline then
    { x with w := http.Error x.w (GoString.lit "service temporarily offline") 503 }
  else
    next r x

/-- Modelled from the spec: `mw.LogRequests(mw.WithSkips(...))` of
`internal/http/middleware`, whose source is not part of the files at hand. The spec names it
an HTTP request-logging middleware: it hands the request to the next handler and, unless the
path is one of the skipped ones, records a log line for it. -/
def LogRequests (skips : List GoString) (next : Handler) : Handler := fun r x =>
  if r.Path ∈ skips then next r x
  else (next r x).logf (GoString.lit "info") (r.Method ++ GoString.lit " " ++ r.Path)

/-- The `/health` handler (main.go, lines 90 to 93). -/
def healthHandler : Handler := fun _ x =>
  { x with w := (x.w.WriteHeader 200).Write (.bytes (GoString.lit "ok")) }

/-- The `/ready` handler (main.go, lines 95 to 98). -/
def readyHandler : Handler := fun _ x =>
  { x with w := (x.w.WriteHeader 200).Write (.bytes (GoString.lit "ready")) }

/-- The `/_flags` handler (main.go, lines 101 to 108); the encoder writes the keys of a map in
sorted order. -/
def flagsHandler (env : Env) : Handler := fun _ x =>
  let resp : JSON := .object [(GoString.lit "logLevel", json.marshalString env.LogLevel),
    (GoString.lit "offline", .bool env.Offline)]
  let w := x.w.SetHeader (GoString.lit "Content-Type") (GoString.lit "application/json")
  { x with w := w.Write (.json resp) }

/-- The country code the `/regional-feeds` handler works with (main.go, lines 112 to 115). -/
def regionalFeeds.country (r : Request) : GoString :=
  if r.QueryGet (GoString.lit "country") = [] then GoString.lit "BR"
  else r.QueryGet (GoString.lit "country")

/-- The weather record of the response, from the outcome of the fetch (main.go, lines 120
to 129). -/
def regionalFeeds.weather (fetched : FetchResult) : Option WeatherData :=
  match fetched.err with
  | some _ =>
    some ⟨GoString.lit "Weather data unavailable", Float64.ofDecimal false 0 0,
      Float64.ofDecimal false 0 0⟩
  | none => fetched.data

/-- Stub news data (main.go, lines 132 to 154); the clock is read once per item. -/
def regionalFeeds.news (env : Env) : GoSlice NewsItem :=
  some [
    ⟨GoString.lit "eu-article-1", GoString.lit "European Markets Rise Amid Economic Growth",
      GoString.lit "EU Financial Times", GoString.lit "https://example.com/eu/article1",
      env.FormatRFC3339 (time.Add (env.Now 0) (-2 * time.Hour))⟩,
    ⟨GoString.lit "eu-article-2", GoString.lit "New Climate Agreement Reached in Brussels",
      GoString.lit "EuroNews", GoString.lit "https://example.com/eu/article2",
      env.FormatRFC3339 (time.Add (env.Now 1) (-4 * time.Hour))⟩,
    ⟨GoString.lit "eu-article-3", GoString.lit "Tech Innovation Summit Draws Global Leaders",
      GoString.lit "European Tech Review", GoString.lit "https://example.com/eu/article3",
      env.FormatRFC3339 (time.Add (env.Now 2) (-6 * time.Hour))⟩ ]

/-- The instants whose renderings are the `PublishedAt` of the three news items. -/
def regionalFeeds.publishedInstants (env : Env) : List Int :=
  [time.Add (env.Now 0) (-2 * time.Hour), time.Add (env.Now 1) (-4 * time.Hour),
    time.Add (env.Now 2) (-6 * time.Hour)]

/-- The response value the `/regional-feeds` handler encodes (main.go, lines 156 to 161). -/
def regionalFeeds.response (env : Env) (r : Request) : RegionalFeedResponse :=
  { Region := GoString.lit "EU"
    Country := regionalFeeds.country r
    Weather := regionalFeeds.weather (FetchWeather env (regionalFeeds.country r))
    News := regionalFeeds.news env }

/-- The `/regional-feeds` handler (main.go, lines 111 to 167). -/
def regionalFeedsHandler (env : Env) : Handler := fun r x =>
  let country := regionalFeeds.country r
  let x := x.logf (GoString.lit "info")
    (GoString.lit "serving SA regional feeds for country: " ++ country)
  let fetched := FetchWeather env country
  let x := { x with calls := x.calls ++ fetched.calls }
  let x := match fetched.err with
    | some err => x.logf (GoString.lit "warn")
        (GoString.lit "failed to fetch weather for " ++ country ++ GoString.lit ": " ++ err ++
          GoString.lit " (using fallback)")
    | none => x
  let response : RegionalFeedResponse :=
    { Region := GoString.lit "EU"
      Country := country
      Weather := regionalFeeds.weather fetched
      News := regionalFeeds.news env }
  let x := { x with w := x.w.SetHeader (GoString.lit "Content-Type") (GoString.lit "application/json") }
  match json.marshalRegionalFeedResponse response with
  | .error err => x.logf (GoString.lit "error") (GoString.lit "failed to encode response: " ++ err)
  | .ok v => { x with w := x.w.Write (.json v) }

/-- A route of the router: path, method and handler. -/
structure Route where
  path : GoString
  method : GoString
  handler : Handler

/-- The routes registered in `main` (main.go, lines 90 to 167). -/
def routes (env : Env) : List Route :=
  [ ⟨GoString.lit "/health", GoString.lit "GET", healthHandler⟩,
    ⟨GoString.lit "/ready", GoString.lit "GET", readyHandler⟩,
    ⟨GoString.lit "/_flags", GoString.lit "GET", flagsHandler env⟩,
    ⟨GoString.lit "/regional-feeds", GoString.lit "GET", regionalFeedsHandler env⟩ ]

/-- The router with its two middlewares (main.go, lines 66 to 87): the first route whose path
and method match the request is served through `offlineGate`, then `LogRequests`, then the
route's handler. The router answers 405 when only the path matches and 404 when nothing
does, in both cases without running the middlewares. -/
def serveHTTP (env : Env) : Handler := fun r x =>
  match (routes env).find? (fun rt => decide (rt.path = r.Path ∧ rt.method = r.Method)) with
  | some rt =>
    offlineGate env
      (LogRequests [GoString.lit "/health", GoString.lit "/ready"] rt.handler) r x
  | none =>
    if (routes env).any (fun rt => decide (rt.path = r.Path)) then
      { x with w := x.w.WriteHeader 405 }
    else
      { x with w := http.Error x.w (GoString.lit "404 page not found") 404 }

/-- A handler that writes nothing and records its invocation, with the path it was handed,
as one entry of the log: a stand-in for the next handler of a middleware. -/
def probeHandler : Handler := fun r x =>
  x.logf (GoString.lit "probe") r.Path

/-! ## Sample environments -/

/-- A provider stand-in: every GET is answered with `status` and `body`, and the decoder
reads the body as `decoded`. The clock starts at 2023-11-14T22:13:20Z and advances by one
millisecond per reading. -/
def Env.answering (status : Int) (body : GoString) (decoded : Except GoString OpenMeteoResponse) :
    Env where
  Get := fun _ => .ok ⟨status, body⟩
  Decode := fun _ => decoded
  Now := fun k => 1700000000000000000 + 1000000 * k
  FormatRFC3339 := time.formatRFC3339UTC
  Offline := false
  LogLevel := GoString.lit "info"

/-- A provider stand-in that cannot be reached: every GET fails in transport. -/
def Env.unreachable : Env where
  Get := fun _ => .error (GoString.lit "dial tcp: connection refused")
  Decode := fun _ => .error (GoString.lit "EOF")
  Now := fun k => 1700000000000000000 + 1000000 * k
  FormatRFC3339 := time.formatRFC3339UTC
  Offline := false
  LogLevel := GoString.lit "info"

/-- An environment whose clock never goes backwards but is two hours further at each
reading (a host suspended between two readings). -/
def Env.leaping : Env where
  Get := fun _ => .error (GoString.lit "dial tcp: connection refused")
  Decode := fun _ => .error (GoString.lit "EOF")
  Now := fun k => 1700000000000000000 + 2 * time.Hour * k
  FormatRFC3339 := time.formatRFC3339UTC
  Offline := false
  LogLevel := GoString.lit "info"

/-! ## Lemmas on maps -/

theorem GoMap.get?_mem {κ ν : Type} [DecidableEq κ] (m : GoMap κ ν) (k : κ) (v : ν)
    (h : m.get? k = some v) : (k, v) ∈ m := by
  induction m with
  | nil => simp [GoMap.get?] at h
  | cons kv rest ih =>
    obtain ⟨k', v'⟩ := kv
    by_cases hk : k = k'
    · simp [GoMap.get?, hk] at h
      simp [hk, h]
    · simp only [GoMap.get?, hk, if_false] at h
      exact List.mem_cons_of_mem _ (ih h)

theorem GoMap.get?_eq_none_iff {κ ν : Type} [DecidableEq κ] (m : GoMap κ ν) (k : κ) :
    m.get? k = none ↔ k ∉ m.map Prod.fst := by
  induction m with
  | nil => simp [GoMap.get?]
  | cons kv rest ih =>
    obtain ⟨k', v'⟩ := kv
    by_cases hk : k = k'
    · simp [GoMap.get?, hk]
    · simp [GoMap.get?, hk, ih]

/-! ## FetchWeather -/

theorem FetchWeather_of_get_error (env : Env) (country e : GoString)
    (h : env.Get (FetchWeather.url (FetchWeather.coords country)) = .error e) :
    FetchWeather env country =
      ⟨none, some (GoString.lit "weather API call failed: " ++ e),
        [FetchWeather.url (FetchWeather.coords country)]⟩ := by
  simp [FetchWeather, h]

theorem FetchWeather_of_status (env : Env) (country : GoString) (resp : HTTPResponse)
    (h : env.Get (FetchWeather.url (FetchWeather.coords country)) = .ok resp)
    (hs : resp.StatusCode ≠ 200) :
    FetchWeather env country =
      ⟨none, some (GoString.lit "weather API returned status " ++ fmt.int resp.StatusCode),
        [FetchWeather.url (FetchWeather.coords country)]⟩ := by
  simp [FetchWeather, h, hs]

theorem FetchWeather_of_decode_error (env : Env) (country e : GoString) (resp : HTTPResponse)
    (h : env.Get (FetchWeather.url (FetchWeather.coords country)) = .ok resp)
    (hs : resp.StatusCode = 200) (hd : env.Decode resp.Body = .error e) :
    FetchWeather env country =
      ⟨none, some (GoString.lit "failed to parse weather response: " ++ e),
        [FetchWeather.url (FetchWeather.coords country)]⟩ := by
  simp [FetchWeather, h, hs, hd]

theorem FetchWeather_of_decoded (env : Env) (country : GoString) (resp : HTTPResponse)
    (apiResp : OpenMeteoResponse)
    (h : env.Get (FetchWeather.url (FetchWeather.coords country)) = .ok resp)
    (hs : resp.StatusCode = 200) (hd : env.Decode resp.Body = .ok apiResp) :
    FetchWeather env country =
      ⟨some ⟨FetchWeather.description apiResp.WeatherCode, apiResp.Temperature,
        apiResp.ApparentTemperature⟩, none,
        [FetchWeather.url (FetchWeather.coords country)]⟩ := by
  simp [FetchWeather, h, hs, hd]

/-- The four ways a call of `FetchWeather` can end. -/
theorem FetchWeather_cases (env : Env) (country : GoString) :
    (∃ e, env.Get (FetchWeather.url (FetchWeather.coords country)) = .error e) ∨
    (∃ resp, env.Get (FetchWeather.url (FetchWeather.coords country)) = .ok resp ∧
      resp.StatusCode ≠ 200) ∨
    (∃ resp e, env.Get (FetchWeather.url (FetchWeather.coords country)) = .ok resp ∧
      resp.StatusCode = 200 ∧ env.Decode resp.Body = .error e) ∨
    (∃ resp apiResp, env.Get (FetchWeather.url (FetchWeather.coords country)) = .ok resp ∧
      resp.StatusCode = 200 ∧ env.Decode resp.Body = .ok apiResp) := by
  cases hg : env.Get (FetchWeather.url (FetchWeather.coords country)) with
  | error e => exact Or.inl ⟨e, rfl⟩
  | ok resp =>
    by_cases hs : resp.StatusCode = 200
    · cases hd : env.Decode resp.Body with
      | error e => exact Or.inr (Or.inr (Or.inl ⟨resp, e, rfl, hs, hd⟩))
      | ok apiResp => exact Or.inr (Or.inr (Or.inr ⟨resp, apiResp, rfl, hs, hd⟩))
    · exact Or.inr (Or.inl ⟨resp, rfl, hs⟩)

theorem FetchWeather_calls (env : Env) (country : GoString) :
    (FetchWeather env country).calls = [FetchWeather.url (FetchWeather.coords country)] := by
  rcases FetchWeather_cases env country with ⟨e, h⟩ | ⟨resp, h, hs⟩ | ⟨resp, e, h, hs, hd⟩ |
    ⟨resp, apiResp, h, hs, hd⟩
  · rw [FetchWeather_of_get_error env country e h]
  · rw [FetchWeather_of_status env country resp h hs]
  · rw [FetchWeather_of_decode_error env country e resp h hs hd]
  · rw [FetchWeather_of_decoded env country resp apiResp h hs hd]

theorem FetchWeather.coords_of_key (country : GoString) (coords : Coordinates)
    (h : saCountryCoordinates.get? country = some coords) :
    FetchWeather.coords country = coords := by
  simp [FetchWeather.coords, h]

/-- The latitude and longitude of every table entry, as `%.4f` prints them. -/
theorem saCountryCoordinates_fixed4 :
    saCountryCoordinates.map (fun kv => (kv.1, fmt.fixed 4 kv.2.Lat, fmt.fixed 4 kv.2.Lon)) =
      [ (GoString.lit "BR", GoString.lit "-23.5505", GoString.lit "-46.6333"),
        (GoString.lit "AR", GoString.lit "-34.6037", GoString.lit "-58.3816"),
        (GoString.lit "CL", GoString.lit "-33.4489", GoString.lit "-70.6693"),
        (GoString.lit "PE", GoString.lit "-12.0464", GoString.lit "-77.0428"),
        (GoString.lit "CO", GoString.lit "4.7110", GoString.lit "-74.0721"),
        (GoString.lit "VE", GoString.lit "10.4806", GoString.lit "-66.9036"),
        (GoString.lit "EC", GoString.lit "-0.1807", GoString.lit "-78.4678"),
        (GoString.lit "UY", GoString.lit "-34.9011", GoString.lit "-56.1645"),
        (GoString.lit "PY", GoString.lit "-25.2637", GoString.lit "-57.5759"),
        (GoString.lit "BO", GoString.lit "-16.5000", GoString.lit "-68.1500") ] := by
  decide

/-- Two entries with different keys give different request URLs. -/
theorem saCountryCoordinates_url_injective :
    ∀ kv ∈ saCountryCoordinates, ∀ kv' ∈ saCountryCoordinates,
      kv.1 ≠ kv'.1 → FetchWeather.url kv.2 ≠ FetchWeather.url kv'.2 := by
  decide

theorem weatherCodeDescriptions_keys :
    weatherCodeDescriptions.map Prod.fst =
      [0, 1, 2, 3, 45, 48, 51, 53, 55, 61, 63, 65, 71, 73, 75, 77, 80, 81, 82, 85, 86, 95, 96, 99] := by
  decide

theorem FetchWeather.description_of_absent (code : Int)
    (h : code ∉ weatherCodeDescriptions.map Prod.fst) :
    FetchWeather.description code = GoString.lit "Unknown" := by
  have hnone := (GoMap.get?_eq_none_iff weatherCodeDescriptions code).mpr h
  simp [FetchWeather.description, hnone]

/-! ## Claims on the weather fetcher -/

/-- C1. For a country code that is a key of `saCountryCoordinates`, `FetchWeather` issues one
GET whose URL is built from that entry's latitude and longitude printed with `%.4f`; the two
printed values are the four-decimal texts of the source for that key (for "BR",
latitude=-23.5505 and longitude=-46.6333), and every other key of the table gives a
different URL. -/
theorem C1_fetchWeather_url_of_table_entry (env : Env) (country : GoString)
    (coords : Coordinates) (h : saCountryCoordinates.get? country = some coords) :
    (FetchWeather env country).calls =
      [GoString.lit "https://api.open-meteo.com/v1/forecast?latitude=" ++
        fmt.fixed 4 coords.Lat ++ GoString.lit "&longitude=" ++ fmt.fixed 4 coords.Lon ++
        GoString.lit "&current=temperature_2m,apparent_temperature,weather_code"] ∧
    (country, fmt.fixed 4 coords.Lat, fmt.fixed 4 coords.Lon) ∈
      [ (GoString.lit "BR", GoString.lit "-23.5505", GoString.lit "-46.6333"),
        (GoString.lit "AR", GoString.lit "-34.6037", GoString.lit "-58.3816"),
        (GoString.lit "CL", GoString.lit "-33.4489", GoString.lit "-70.6693"),
        (GoString.lit "PE", GoString.lit "-12.0464", GoString.lit "-77.0428"),
        (GoString.lit "CO", GoString.lit "4.7110", GoString.lit "-74.0721"),
        (GoString.lit "VE", GoString.lit "10.4806", GoString.lit "-66.9036"),
        (GoString.lit "EC", GoString.lit "-0.1807", GoString.lit "-78.4678"),
        (GoString.lit "UY", GoString.lit "-34.9011", GoString.lit "-56.1645"),
        (GoString.lit "PY", GoString.lit "-25.2637", GoString.lit "-57.5759"),
        (GoString.lit "BO", GoString.lit "-16.5000", GoString.lit "-68.1500") ] ∧
    (∀ other coords', saCountryCoordinates.get? other = some coords' → other ≠ country →
      (FetchWeather env other).calls ≠ (FetchWeather env country).calls) := by
  have hmem := GoMap.get?_mem _ _ _ h
  refine ⟨?_, ?_, ?_⟩
  · rw [FetchWeather_calls, FetchWeather.coords_of_key country coords h]
    rfl
  · rw [← saCountryCoordinates_fixed4]
    exact List.mem_map.mpr ⟨(country, coords), hmem, rfl⟩
  · intro other coords' h' hne hcalls
    have hmem' := GoMap.get?_mem _ _ _ h'
    rw [FetchWeather_calls, FetchWeather_calls, FetchWeather.coords_of_key country coords h,
      FetchWeather.coords_of_key other coords' h'] at hcalls
    exact saCountryCoordinates_url_injective (other, coords') hmem' (country, coords) hmem hne
      (List.head_eq_of_cons_eq hcalls)

/-- C1 at "BR", against an unreachable provider: the URL carries São Paulo's coordinates, and
the URL for "AR" is another one. -/
theorem C1_fetchWeather_url_of_table_entry_witness :
    saCountryCoordinates.get? (GoString.lit "BR") =
      some ⟨Float64.ofDecimal true 235505 4, Float64.ofDecimal true 466333 4⟩ ∧
    (FetchWeather Env.unreachable (GoString.lit "BR")).calls =
      [GoString.lit "https://api.open-meteo.com/v1/forecast?latitude=-23.5505&longitude=-46.6333&current=temperature_2m,apparent_temperature,weather_code"] ∧
    (FetchWeather Env.unreachable (GoString.lit "AR")).calls ≠
      (FetchWeather Env.unreachable (GoString.lit "BR")).calls :=
  ⟨by decide,
    (C1_fetchWeather_url_of_table_entry Env.unreachable (GoString.lit "BR")
      ⟨Float64.ofDecimal true 235505 4, Float64.ofDecimal true 466333 4⟩ (by decide)).1.trans
      (by decide),
    (C1_fetchWeather_url_of_table_entry Env.unreachable (GoString.lit "BR")
      ⟨Float64.ofDecimal true 235505 4, Float64.ofDecimal true 466333 4⟩ (by decide)).2.2
      (GoString.lit "AR") ⟨Float64.ofDecimal true 346037 4, Float64.ofDecimal true 583816 4⟩
      (by decide) (by decide)⟩

/-- C2. For a string that is not a key of `saCountryCoordinates`, the coordinates resolved by
`FetchWeather` are those stored for "BR", the request URL is the one built for "BR", and the
whole outcome of the call is the outcome of the call for "BR": the unknown code adds no
error of its own. -/
theorem C2_fetchWeather_unknown_country_uses_BR (env : Env) (country : GoString)
    (h : saCountryCoordinates.get? country = none) :
    saCountryCoordinates.get? (GoString.lit "BR") = some (FetchWeather.coords country) ∧
    (FetchWeather env country).calls =
      [GoString.lit "https://api.open-meteo.com/v1/forecast?latitude=-23.5505&longitude=-46.6333&current=temperature_2m,apparent_temperature,weather_code"] ∧
    (FetchWeather env country).calls = (FetchWeather env (GoString.lit "BR")).calls ∧
    FetchWeather env country = FetchWeather env (GoString.lit "BR") := by
  have hc : FetchWeather.coords country = FetchWeather.coords (GoString.lit "BR") := by
    have hbr : FetchWeather.coords (GoString.lit "BR") =
        saCountryCoordinates.index (GoString.lit "BR") Coordinates.zero := by decide
    rw [hbr]
    simp [FetchWeather.coords, h]
  have hf : FetchWeather env country = FetchWeather env (GoString.lit "BR") := by
    simp only [FetchWeather, hc]
  refine ⟨?_, ?_, ?_, hf⟩
  · rw [hc]; decide
  · rw [FetchWeather_calls, hc]; decide
  · rw [hf]

/-- C2 at "XX", "UNKNOWN", the empty string and lowercase "br": none is a key, and each is
queried at the URL of "BR". -/
theorem C2_fetchWeather_unknown_country_uses_BR_witness :
    (saCountryCoordinates.get? (GoString.lit "XX") = none ∧
      FetchWeather Env.unreachable (GoString.lit "XX") =
        FetchWeather Env.unreachable (GoString.lit "BR")) ∧
    (saCountryCoordinates.get? (GoString.lit "UNKNOWN") = none ∧
      FetchWeather Env.unreachable (GoString.lit "UNKNOWN") =
        FetchWeather Env.unreachable (GoString.lit "BR")) ∧
    (saCountryCoordinates.get? (GoString.lit "") = none ∧
      FetchWeather Env.unreachable (GoString.lit "") =
        FetchWeather Env.unreachable (GoString.lit "BR")) ∧
    (saCountryCoordinates.get? (GoString.lit "br") = none ∧
      FetchWeather Env.unreachable (GoString.lit "br") =
        FetchWeather Env.unreachable (GoString.lit "BR")) :=
  ⟨⟨by decide, (C2_fetchWeather_unknown_country_uses_BR Env.unreachable (GoString.lit "XX")
      (by decide)).2.2.2⟩,
    ⟨by decide, (C2_fetchWeather_unknown_country_uses_BR Env.unreachable (GoString.lit "UNKNOWN")
      (by decide)).2.2.2⟩,
    ⟨by decide, (C2_fetchWeather_unknown_country_uses_BR Env.unreachable (GoString.lit "")
      (by decide)).2.2.2⟩,
    ⟨by decide, (C2_fetchWeather_unknown_country_uses_BR Env.unreachable (GoString.lit "br")
      (by decide)).2.2.2⟩⟩

/-- C3. When the provider answers 200 and its body decodes, `FetchWeather` returns a record
and no error, whatever the weather code. The Summary of the record is the entry of
`weatherCodeDescriptions` for the decoded code when the code is a key (0 gives "Clear sky",
95 gives "Thunderstorm") and the literal "Unknown" when it is not (999, every negative
code); temperature and apparent temperature are the decoded ones. -/
theorem C3_fetchWeather_summary_of_code (env : Env) (country : GoString) (resp : HTTPResponse)
    (apiResp : OpenMeteoResponse)
    (hget : env.Get (FetchWeather.url (FetchWeather.coords country)) = .ok resp)
    (hstatus : resp.StatusCode = 200) (hdecode : env.Decode resp.Body = .ok apiResp) :
    (FetchWeather env country).err = none ∧
    ∃ w, (FetchWeather env country).data = some w ∧
      w.TemperatureC = apiResp.Temperature ∧ w.FeelsLikeC = apiResp.ApparentTemperature ∧
      (∀ d, weatherCodeDescriptions.get? apiResp.WeatherCode = some d → w.Summary = d) ∧
      (weatherCodeDescriptions.get? apiResp.WeatherCode = none →
        w.Summary = GoString.lit "Unknown") ∧
      (apiResp.WeatherCode ∉
          [0, 1, 2, 3, 45, 48, 51, 53, 55, 61, 63, 65, 71, 73, 75, 77, 80, 81, 82, 85, 86, 95, 96, 99] →
        w.Summary = GoString.lit "Unknown") ∧
      (apiResp.WeatherCode = 0 → w.Summary = GoString.lit "Clear sky") ∧
      (apiResp.WeatherCode = 95 → w.Summary = GoString.lit "Thunderstorm") ∧
      (apiResp.WeatherCode = 999 → w.Summary = GoString.lit "Unknown") ∧
      (apiResp.WeatherCode < 0 → w.Summary = GoString.lit "Unknown") := by
  rw [FetchWeather_of_decoded env country resp apiResp hget hstatus hdecode]
  refine ⟨rfl, _, rfl, rfl, rfl, ?_, ?_, ?_, ?_, ?_, ?_, ?_⟩
  · intro d hd
    simp [FetchWeather.description, hd]
  · intro hnone
    simp [FetchWeather.description, hnone]
  · intro habs
    exact FetchWeather.description_of_absent _ (by rw [weatherCodeDescriptions_keys]; exact habs)
  · intro h0
    simp only [h0]; decide
  · intro h95
    simp only [h95]; decide
  · intro h999
    simp only [h999]; decide
  · intro hneg
    apply FetchWeather.description_of_absent
    rw [weatherCodeDescriptions_keys]
    simp only [List.mem_cons, List.mem_singleton, List.not_mem_nil, or_false, not_or]
    omega

/-- C3 at a provider answering 200 with weather codes 0, 95, 999 and -1. -/
theorem C3_fetchWeather_summary_of_code_witness :
    (FetchWeather (Env.answering 200 [] (.ok ⟨Float64.ofDecimal false 255 1,
        Float64.ofDecimal false 24 0, 0⟩)) (GoString.lit "BR")).data =
      some ⟨GoString.lit "Clear sky", Float64.ofDecimal false 255 1, Float64.ofDecimal false 24 0⟩ ∧
    (FetchWeather (Env.answering 200 [] (.ok ⟨Float64.zero, Float64.zero, 999⟩))
        (GoString.lit "BR")).err = none ∧
    (∃ w, (FetchWeather (Env.answering 200 [] (.ok ⟨Float64.zero, Float64.zero, 999⟩))
        (GoString.lit "BR")).data = some w ∧ w.Summary = GoString.lit "Unknown") ∧
    (∃ w, (FetchWeather (Env.answering 200 [] (.ok ⟨Float64.zero, Float64.zero, -1⟩))
        (GoString.lit "BR")).data = some w ∧ w.Summary = GoString.lit "Unknown") ∧
    (∃ w, (FetchWeather (Env.answering 200 [] (.ok ⟨Float64.zero, Float64.zero, 95⟩))
        (GoString.lit "BR")).data = some w ∧ w.Summary = GoString.lit "Thunderstorm") := by
  refine ⟨by decide, ?_, ?_, ?_, ?_⟩
  · exact (C3_fetchWeather_summary_of_code
      (Env.answering 200 [] (.ok ⟨Float64.zero, Float64.zero, 999⟩)) (GoString.lit "BR")
      ⟨200, []⟩ ⟨Float64.zero, Float64.zero, 999⟩ rfl rfl rfl).1
  · obtain ⟨w, hw, _, _, _, _, _, _, _, h999, _⟩ := (C3_fetchWeather_summary_of_code
      (Env.answering 200 [] (.ok ⟨Float64.zero, Float64.zero, 999⟩)) (GoString.lit "BR")
      ⟨200, []⟩ ⟨Float64.zero, Float64.zero, 999⟩ rfl rfl rfl).2
    exact ⟨w, hw, h999 rfl⟩
  · obtain ⟨w, hw, _, _, _, _, _, _, _, _, hneg⟩ := (C3_fetchWeather_summary_of_code
      (Env.answering 200 [] (.ok ⟨Float64.zero, Float64.zero, -1⟩)) (GoString.lit "BR")
      ⟨200, []⟩ ⟨Float64.zero, Float64.zero, -1⟩ rfl rfl rfl).2
    exact ⟨w, hw, hneg (by decide)⟩
  · obtain ⟨w, hw, _, _, _, _, _, _, h95, _, _⟩ := (C3_fetchWeather_summary_of_code
      (Env.answering 200 [] (.ok ⟨Float64.zero, Float64.zero, 95⟩)) (GoString.lit "BR")
      ⟨200, []⟩ ⟨Float64.zero, Float64.zero, 95⟩ rfl rfl rfl).2
    exact ⟨w, hw, h95 rfl⟩

/-- C4. `FetchWeather` is all-or-nothing. For every environment and country it returns either
a record with a nil error or a nil record with an error, never both and never neither. In
each failure case (the GET fails in transport; the status is not 200, which covers every
status outside 200..299; the body does not decode) it returns the nil record with an error. -/
theorem C4_fetchWeather_all_or_nothing (env : Env) (country : GoString) :
    (((FetchWeather env country).data ≠ none ∧ (FetchWeather env country).err = none) ∨
      ((FetchWeather env country).data = none ∧ (FetchWeather env country).err ≠ none)) ∧
    (∀ e, env.Get (FetchWeather.url (FetchWeather.coords country)) = .error e →
      (FetchWeather env country).data = none ∧ (FetchWeather env country).err ≠ none) ∧
    (∀ resp, env.Get (FetchWeather.url (FetchWeather.coords country)) = .ok resp →
      resp.StatusCode ≠ 200 →
      (FetchWeather env country).data = none ∧ (FetchWeather env country).err ≠ none) ∧
    (∀ resp, env.Get (FetchWeather.url (FetchWeather.coords country)) = .ok resp →
      (resp.StatusCode < 200 ∨ 299 < resp.StatusCode) →
      (FetchWeather env country).data = none ∧ (FetchWeather env country).err ≠ none) ∧
    (∀ resp e, env.Get (FetchWeather.url (FetchWeather.coords country)) = .ok resp →
      env.Decode resp.Body = .error e →
      (FetchWeather env country).data = none ∧ (FetchWeather env country).err ≠ none) := by
  have hstatus : ∀ resp, env.Get (FetchWeather.url (FetchWeather.coords country)) = .ok resp →
      resp.StatusCode ≠ 200 →
      (FetchWeather env country).data = none ∧ (FetchWeather env country).err ≠ none := by
    intro resp h hs
    rw [FetchWeather_of_status env country resp h hs]
    exact ⟨rfl, by simp⟩
  refine ⟨?_, ?_, hstatus, ?_, ?_⟩
  · rcases FetchWeather_cases env country with ⟨e, h⟩ | ⟨resp, h, hs⟩ | ⟨resp, e, h, hs, hd⟩ |
      ⟨resp, apiResp, h, hs, hd⟩
    · rw [FetchWeather_of_get_error env country e h]
      exact Or.inr ⟨rfl, by simp⟩
    · exact Or.inr (hstatus resp h hs)
    · rw [FetchWeather_of_decode_error env country e resp h hs hd]
      exact Or.inr ⟨rfl, by simp⟩
    · rw [FetchWeather_of_decoded env country resp apiResp h hs hd]
      exact Or.inl ⟨by simp, rfl⟩
  · intro e h
    rw [FetchWeather_of_get_error env country e h]
    exact ⟨rfl, by simp⟩
  · intro resp h hs
    exact hstatus resp h (by omega)
  · intro resp e h hd
    by_cases hs : resp.StatusCode = 200
    · rw [FetchWeather_of_decode_error env country e resp h hs hd]
      exact ⟨rfl, by simp⟩
    · exact hstatus resp h hs

/-- C4 at an unreachable provider, at a provider answering 503, and at a provider answering
200 with a body that does not decode: a nil record and an error each time. -/
theorem C4_fetchWeather_all_or_nothing_witness :
    ((FetchWeather Env.unreachable (GoString.lit "BR")).data = none ∧
      (FetchWeather Env.unreachable (GoString.lit "BR")).err ≠ none) ∧
    ((FetchWeather (Env.answering 503 [] (.ok ⟨Float64.zero, Float64.zero, 0⟩))
        (GoString.lit "BR")).data = none ∧
      (FetchWeather (Env.answering 503 [] (.ok ⟨Float64.zero, Float64.zero, 0⟩))
        (GoString.lit "BR")).err ≠ none) ∧
    ((FetchWeather (Env.answering 200 (GoString.lit "<html>") (.error (GoString.lit
        "invalid character"))) (GoString.lit "BR")).data = none ∧
      (FetchWeather (Env.answering 200 (GoString.lit "<html>") (.error (GoString.lit
        "invalid character"))) (GoString.lit "BR")).err ≠ none) :=
  ⟨(C4_fetchWeather_all_or_nothing Env.unreachable (GoString.lit "BR")).2.1 _ rfl,
    (C4_fetchWeather_all_or_nothing (Env.answering 503 [] (.ok ⟨Float64.zero, Float64.zero, 0⟩))
      (GoString.lit "BR")).2.2.1 ⟨503, []⟩ rfl (by decide),
    (C4_fetchWeather_all_or_nothing (Env.answering 200 (GoString.lit "<html>")
      (.error (GoString.lit "invalid character"))) (GoString.lit "BR")).2.2.2.2
      ⟨200, GoString.lit "<html>"⟩ (GoString.lit "invalid character") rfl rfl⟩

/-- C10. Every entry of `saCountryCoordinates` passes the range check of the tests (latitude
in [-90, 90], longitude in [-180, 180]) and the South-America check (latitude in [-60, 15],
longitude in [-80, -35]); so do the coordinates `FetchWeather` resolves for any input string,
a table entry or the "BR" fallback. -/
theorem C10_coordinates_within_bounds :
    (saCountryCoordinates.all (fun kv => kv.2.valid && kv.2.inSouthAmerica) = true) ∧
    (saCountryCoordinates.all (fun kv =>
      Float64.le (Float64.ofDecimal true 90 0) kv.2.Lat &&
      Float64.le kv.2.Lat (Float64.ofDecimal false 90 0) &&
      Float64.le (Float64.ofDecimal true 180 0) kv.2.Lon &&
      Float64.le kv.2.Lon (Float64.ofDecimal false 180 0) &&
      Float64.le (Float64.ofDecimal true 60 0) kv.2.Lat &&
      Float64.le kv.2.Lat (Float64.ofDecimal false 15 0) &&
      Float64.le (Float64.ofDecimal true 80 0) kv.2.Lon &&
      Float64.le kv.2.Lon (Float64.ofDecimal true 35 0)) = true) ∧
    (∀ country : GoString,
      (FetchWeather.coords country).valid = true ∧
      (FetchWeather.coords country).inSouthAmerica = true ∧
      Float64.le (Float64.ofDecimal true 90 0) (FetchWeather.coords country).Lat = true ∧
      Float64.le (FetchWeather.coords country).Lat (Float64.ofDecimal false 90 0) = true ∧
      Float64.le (Float64.ofDecimal true 180 0) (FetchWeather.coords country).Lon = true ∧
      Float64.le (FetchWeather.coords country).Lon (Float64.ofDecimal false 180 0) = true ∧
      Float64.le (Float64.ofDecimal true 60 0) (FetchWeather.coords country).Lat = true ∧
      Float64.le (FetchWeather.coords country).Lat (Float64.ofDecimal false 15 0) = true ∧
      Float64.le (Float64.ofDecimal true 80 0) (FetchWeather.coords country).Lon = true ∧
      Float64.le (FetchWeather.coords country).Lon (Float64.ofDecimal true 35 0) = true) := by
  have hall : ∀ kv ∈ saCountryCoordinates,
      kv.2.valid = true ∧ kv.2.inSouthAmerica = true ∧
      Float64.le (Float64.ofDecimal true 90 0) kv.2.Lat = true ∧
      Float64.le kv.2.Lat (Float64.ofDecimal false 90 0) = true ∧
      Float64.le (Float64.ofDecimal true 180 0) kv.2.Lon = true ∧
      Float64.le kv.2.Lon (Float64.ofDecimal false 180 0) = true ∧
      Float64.le (Float64.ofDecimal true 60 0) kv.2.Lat = true ∧
      Float64.le kv.2.Lat (Float64.ofDecimal false 15 0) = true ∧
      Float64.le (Float64.ofDecimal true 80 0) kv.2.Lon = true ∧
      Float64.le kv.2.Lon (Float64.ofDecimal true 35 0) = true := by decide
  refine ⟨by decide, by decide, ?_⟩
  intro country
  cases hk : saCountryCoordinates.get? country with
  | some coords =>
    rw [FetchWeather.coords_of_key country coords hk]
    exact hall (country, coords) (GoMap.get?_mem _ _ _ hk)
  | none =>
    have hbr : FetchWeather.coords country =
        ⟨Float64.ofDecimal true 235505 4, Float64.ofDecimal true 466333 4⟩ := by
      simp only [FetchWeather.coords, hk]; decide
    rw [hbr]
    decide

/-! ## The `/regional-feeds` handler -/

/-- The handler encodes `regionalFeeds.response`: from a writer with no header written, it
sets the content type and, when the response marshals, writes its JSON under status 200. -/
theorem regionalFeedsHandler_writes (env : Env) (r : Request) (x : Exchange) (v : JSON)
    (hx : x.w.status = none)
    (hv : json.marshalRegionalFeedResponse (regionalFeeds.response env r) = .ok v) :
    (regionalFeedsHandler env r x).w.status = some 200 ∧
    (regionalFeedsHandler env r x).w.body = x.w.body ++ [Chunk.json v] ∧
    (regionalFeedsHandler env r x).calls =
      x.calls ++ (FetchWeather env (regionalFeeds.country r)).calls := by
  simp only [regionalFeeds.response] at hv
  simp only [regionalFeedsHandler, hv]
  cases (FetchWeather env (regionalFeeds.country r)).err <;>
    simp [Exchange.logf, ResponseWriter.Write, ResponseWriter.WriteHeader,
      ResponseWriter.SetHeader, hx]

/-- The response with the fallback weather record always marshals. -/
theorem marshal_fallback_response (region country : GoString) (news : GoSlice NewsItem) :
    ∃ v, json.marshalRegionalFeedResponse
      ⟨region, country, some ⟨GoString.lit "Weather data unavailable", Float64.zero, Float64.zero⟩,
        news⟩ = .ok v := by
  have hw : json.marshalWeatherData
      ⟨GoString.lit "Weather data unavailable", Float64.zero, Float64.zero⟩ =
      .ok (.object [(GoString.lit "summary",
        json.marshalString (GoString.lit "Weather data unavailable")),
        (GoString.lit "temperatureC", .number Float64.zero),
        (GoString.lit "feelsLikeC", .number Float64.zero)]) := by rfl
  simp only [json.marshalRegionalFeedResponse, hw]
  exact ⟨_, rfl⟩

/-- C5. When `FetchWeather` returns an error, the response of the `/regional-feeds` handler
carries the weather record {"Weather data unavailable", 0, 0}; the handler writes that
response as JSON under status 200, so the fetch error does not reach the HTTP caller. When
`FetchWeather` returns no error, the response carries the fetched record unchanged. Region,
country and news do not depend on the outcome of the fetch: two environments with the same
clock and time rendering give the same three fields. -/
theorem C5_regional_feeds_weather_fallback (env : Env) (r : Request) :
    (∀ e, (FetchWeather env (regionalFeeds.country r)).err = some e →
      (regionalFeeds.response env r).Weather =
        some ⟨GoString.lit "Weather data unavailable", Float64.zero, Float64.zero⟩ ∧
      ∃ v, json.marshalRegionalFeedResponse (regionalFeeds.response env r) = .ok v ∧
        (regionalFeedsHandler env r Exchange.fresh).w.status = some 200 ∧
        (regionalFeedsHandler env r Exchange.fresh).w.body = [Chunk.json v]) ∧
    ((FetchWeather env (regionalFeeds.country r)).err = none →
      (regionalFeeds.response env r).Weather =
        (FetchWeather env (regionalFeeds.country r)).data) ∧
    (∀ env' : Env, env'.Now = env.Now → env'.FormatRFC3339 = env.FormatRFC3339 →
      (regionalFeeds.response env' r).Region = (regionalFeeds.response env r).Region ∧
      (regionalFeeds.response env' r).Country = (regionalFeeds.response env r).Country ∧
      (regionalFeeds.response env' r).News = (regionalFeeds.response env r).News) := by
  refine ⟨?_, ?_, ?_⟩
  · intro e he
    have hw : (regionalFeeds.response env r).Weather =
        some ⟨GoString.lit "Weather data unavailable", Float64.zero, Float64.zero⟩ := by
      simp only [regionalFeeds.response, regionalFeeds.weather, he]
      rfl
    refine ⟨hw, ?_⟩
    have hresp : regionalFeeds.response env r =
        ⟨(regionalFeeds.response env r).Region, (regionalFeeds.response env r).Country,
          some ⟨GoString.lit "Weather data unavailable", Float64.zero, Float64.zero⟩,
          (regionalFeeds.response env r).News⟩ := by
      rw [← hw]
    obtain ⟨v, hv⟩ := marshal_fallback_response (regionalFeeds.response env r).Region
      (regionalFeeds.response env r).Country (regionalFeeds.response env r).News
    rw [← hresp] at hv
    obtain ⟨hs, hb, _⟩ := regionalFeedsHandler_writes env r Exchange.fresh v rfl hv
    exact ⟨v, hv, hs, by simpa [Exchange.fresh, ResponseWriter.fresh] using hb⟩
  · intro hnone
    simp only [regionalFeeds.response, regionalFeeds.weather, hnone]
  · intro env' hnow hfmt
    simp only [regionalFeeds.response, regionalFeeds.news, hnow, hfmt, and_self]

/-- C5 at an unreachable provider and at a provider answering 200 with code 0. -/
theorem C5_regional_feeds_weather_fallback_witness :
    ((regionalFeeds.response Env.unreachable
        ⟨GoString.lit "GET", GoString.lit "/regional-feeds", []⟩).Weather =
      some ⟨GoString.lit "Weather data unavailable", Float64.zero, Float64.zero⟩ ∧
      ∃ v, json.marshalRegionalFeedResponse (regionalFeeds.response Env.unreachable
          ⟨GoString.lit "GET", GoString.lit "/regional-feeds", []⟩) = .ok v ∧
        (regionalFeedsHandler Env.unreachable
          ⟨GoString.lit "GET", GoString.lit "/regional-feeds", []⟩ Exchange.fresh).w.status =
            some 200 ∧
        (regionalFeedsHandler Env.unreachable
          ⟨GoString.lit "GET", GoString.lit "/regional-feeds", []⟩ Exchange.fresh).w.body =
            [Chunk.json v]) ∧
    (regionalFeeds.response
        (Env.answering 200 [] (.ok ⟨Float64.ofDecimal false 255 1, Float64.ofDecimal false 24 0, 0⟩))
        ⟨GoString.lit "GET", GoString.lit "/regional-feeds", []⟩).Weather =
      (FetchWeather
        (Env.answering 200 [] (.ok ⟨Float64.ofDecimal false 255 1, Float64.ofDecimal false 24 0, 0⟩))
        (GoString.lit "BR")).data :=
  ⟨(C5_regional_feeds_weather_fallback Env.unreachable
      ⟨GoString.lit "GET", GoString.lit "/regional-feeds", []⟩).1
      (GoString.lit "weather API call failed: dial tcp: connection refused") (by decide),
    (C5_regional_feeds_weather_fallback
      (Env.answering 200 [] (.ok ⟨Float64.ofDecimal false 255 1, Float64.ofDecimal false 24 0, 0⟩))
      ⟨GoString.lit "GET", GoString.lit "/regional-feeds", []⟩).2.1 (by decide)⟩

/-- C6. Whatever the offline flag, the offline gate hands a request whose path is "/health" or
"/ready" to the next handler and writes nothing itself; the server answers a GET of
"/health" with status 200 and body "ok", and a GET of "/ready" with status 200 and body
"ready", never with 503. -/
theorem C6_health_and_ready_pass_the_gate (env : Env) (r : Request) :
    (r.Path = GoString.lit "/health" ∨ r.Path = GoString.lit "/ready" →
      ∀ (next : Handler) (x : Exchange), offlineGate env next r x = next r x) ∧
    (r.Method = GoString.lit "GET" → r.Path = GoString.lit "/health" →
      (serveHTTP env r Exchange.fresh).w.status = some 200 ∧
      (serveHTTP env r Exchange.fresh).w.body = [Chunk.bytes (GoString.lit "ok")] ∧
      (serveHTTP env r Exchange.fresh).w.bodyBytes = some (GoString.lit "ok") ∧
      (serveHTTP env r Exchange.fresh).w.status ≠ some 503) ∧
    (r.Method = GoString.lit "GET" → r.Path = GoString.lit "/ready" →
      (serveHTTP env r Exchange.fresh).w.status = some 200 ∧
      (serveHTTP env r Exchange.fresh).w.body = [Chunk.bytes (GoString.lit "ready")] ∧
      (serveHTTP env r Exchange.fresh).w.bodyBytes = some (GoString.lit "ready") ∧
      (serveHTTP env r Exchange.fresh).w.status ≠ some 503) := by
  obtain ⟨method, path, query⟩ := r
  refine ⟨?_, ?_, ?_⟩
  · intro hp next x
    simp only [offlineGate, hp, if_true]
  · intro hm hp
    simp only at hm hp
    subst hm hp
    refine ⟨rfl, rfl, rfl, ?_⟩
    intro h503
    have h200 : (serveHTTP env ⟨GoString.lit "GET", GoString.lit "/health", query⟩
        Exchange.fresh).w.status = some 200 := rfl
    rw [h200] at h503
    exact absurd h503 (by decide)
  · intro hm hp
    simp only at hm hp
    subst hm hp
    refine ⟨rfl, rfl, rfl, ?_⟩
    intro h503
    have h200 : (serveHTTP env ⟨GoString.lit "GET", GoString.lit "/ready", query⟩
        Exchange.fresh).w.status = some 200 := rfl
    rw [h200] at h503
    exact absurd h503 (by decide)

/-- C6 with the offline flag on: "/health" and "/ready" are still answered 200. -/
theorem C6_health_and_ready_pass_the_gate_witness :
    ((serveHTTP { Env.unreachable with Offline := true }
        ⟨GoString.lit "GET", GoString.lit "/health", []⟩ Exchange.fresh).w.status = some 200 ∧
      (serveHTTP { Env.unreachable with Offline := true }
        ⟨GoString.lit "GET", GoString.lit "/health", []⟩ Exchange.fresh).w.bodyBytes =
          some (GoString.lit "ok")) ∧
    ((serveHTTP { Env.unreachable with Offline := true }
        ⟨GoString.lit "GET", GoString.lit "/ready", []⟩ Exchange.fresh).w.status = some 200 ∧
      (serveHTTP { Env.unreachable with Offline := true }
        ⟨GoString.lit "GET", GoString.lit "/ready", []⟩ Exchange.fresh).w.bodyBytes =
          some (GoString.lit "ready")) ∧
    offlineGate { Env.unreachable with Offline := true } healthHandler
        ⟨GoString.lit "GET", GoString.lit "/health", []⟩ Exchange.fresh =
      healthHandler ⟨GoString.lit "GET", GoString.lit "/health", []⟩ Exchange.fresh :=
  ⟨⟨((C6_health_and_ready_pass_the_gate { Env.unreachable with Offline := true }
        ⟨GoString.lit "GET", GoString.lit "/health", []⟩).2.1 rfl rfl).1,
      ((C6_health_and_ready_pass_the_gate { Env.unreachable with Offline := true }
        ⟨GoString.lit "GET", GoString.lit "/health", []⟩).2.1 rfl rfl).2.2.1⟩,
    ⟨((C6_health_and_ready_pass_the_gate { Env.unreachable with Offline := true }
        ⟨GoString.lit "GET", GoString.lit "/ready", []⟩).2.2 rfl rfl).1,
      ((C6_health_and_ready_pass_the_gate { Env.unreachable with Offline := true }
        ⟨GoString.lit "GET", GoString.lit "/ready", []⟩).2.2 rfl rfl).2.2.1⟩,
    (C6_health_and_ready_pass_the_gate { Env.unreachable with Offline := true }
      ⟨GoString.lit "GET", GoString.lit "/health", []⟩).1 (Or.inl rfl) healthHandler
      Exchange.fresh⟩

/-- C8. Whatever the outcome of the weather fetch, the response of the `/regional-feeds`
handler has Region "EU" and has as Country the code handed to `FetchWeather`: the value of
the `country` query parameter when it is not empty, "BR" when it is empty or absent. The
code is passed through verbatim. -/
theorem C8_regional_feeds_region_and_country (env : Env) (r : Request) :
    (regionalFeeds.response env r).Region = GoString.lit "EU" ∧
    (regionalFeeds.response env r).Country = regionalFeeds.country r ∧
    (regionalFeeds.response env r).Weather =
      regionalFeeds.weather (FetchWeather env (regionalFeeds.country r)) ∧
    (regionalFeedsHandler env r Exchange.fresh).calls =
      (FetchWeather env (regionalFeeds.country r)).calls ∧
    (∀ v, json.marshalRegionalFeedResponse (regionalFeeds.response env r) = .ok v →
      (regionalFeedsHandler env r Exchange.fresh).w.body = [Chunk.json v]) ∧
    (r.QueryGet (GoString.lit "country") ≠ [] →
      (regionalFeeds.response env r).Country = r.QueryGet (GoString.lit "country")) ∧
    (r.QueryGet (GoString.lit "country") = [] →
      (regionalFeeds.response env r).Country = GoString.lit "BR") ∧
    (r.Query.get? (GoString.lit "country") = none →
      (regionalFeeds.response env r).Country = GoString.lit "BR") := by
  refine ⟨rfl, rfl, rfl, ?_, ?_, ?_, ?_, ?_⟩
  · simp only [regionalFeedsHandler]
    cases (FetchWeather env (regionalFeeds.country r)).err <;>
      cases json.marshalRegionalFeedResponse _ <;>
        simp [Exchange.logf, Exchange.fresh]
  · intro v hv
    have h := (regionalFeedsHandler_writes env r Exchange.fresh v rfl hv).2.1
    simpa [Exchange.fresh, ResponseWriter.fresh] using h
  · intro hne
    simp [regionalFeeds.response, regionalFeeds.country, hne]
  · intro he
    simp [regionalFeeds.response, regionalFeeds.country, he]
  · intro hnone
    simp [regionalFeeds.response, regionalFeeds.country, Request.QueryGet, hnone]

/-- C8 at `?country=br`, `?country=XX` and a request without the parameter. -/
theorem C8_regional_feeds_region_and_country_witness :
    (regionalFeeds.response Env.unreachable ⟨GoString.lit "GET", GoString.lit "/regional-feeds",
      [(GoString.lit "country", [GoString.lit "br"])]⟩).Country = GoString.lit "br" ∧
    (regionalFeeds.response Env.unreachable ⟨GoString.lit "GET", GoString.lit "/regional-feeds",
      [(GoString.lit "country", [GoString.lit "XX"])]⟩).Country = GoString.lit "XX" ∧
    (regionalFeeds.response Env.unreachable ⟨GoString.lit "GET", GoString.lit "/regional-feeds",
      []⟩).Country = GoString.lit "BR" :=
  ⟨(C8_regional_feeds_region_and_country Env.unreachable ⟨GoString.lit "GET",
      GoString.lit "/regional-feeds", [(GoString.lit "country", [GoString.lit "br"])]⟩).2.2.2.2.2.1
      (by decide),
    (C8_regional_feeds_region_and_country Env.unreachable ⟨GoString.lit "GET",
      GoString.lit "/regional-feeds", [(GoString.lit "country", [GoString.lit "XX"])]⟩).2.2.2.2.2.1
      (by decide),
    (C8_regional_feeds_region_and_country Env.unreachable ⟨GoString.lit "GET",
      GoString.lit "/regional-feeds", []⟩).2.2.2.2.2.2.2 (by decide)⟩

/-- C9 as stated fails. The clock of `Env.leaping` never goes backwards (so it does not go
backwards by two hours between readings), yet it is two hours further at each reading: the
three instants rendered are one and the same, the three `PublishedAt` are equal, and the
list is not strictly decreasing. -/
theorem C9_news_not_decreasing_counterexample :
    (∀ k, Env.leaping.Now k ≤ Env.leaping.Now (k + 1)) ∧
    (∀ k, Env.leaping.Now k - 2 * time.Hour < Env.leaping.Now (k + 1)) ∧
    regionalFeeds.publishedInstants Env.leaping =
      [1699992800000000000, 1699992800000000000, 1699992800000000000] ∧
    (regionalFeeds.response Env.leaping
        ⟨GoString.lit "GET", GoString.lit "/regional-feeds", []⟩).News.items.map
        (fun n => n.PublishedAt) =
      [GoString.lit "2023-11-14T20:13:20Z", GoString.lit "2023-11-14T20:13:20Z",
        GoString.lit "2023-11-14T20:13:20Z"] ∧
    ¬ List.Pairwise (fun a b => b < a) (regionalFeeds.publishedInstants Env.leaping) := by
  refine ⟨?_, ?_, by decide, by decide, by decide⟩
  · intro k
    simp only [Env.leaping, time.Hour]
    omega
  · intro k
    simp only [Env.leaping, time.Hour]
    omega

/-- C9, amended. For every request to `/regional-feeds`, whatever the country code and the
outcome of the weather fetch, the News of the response is the list of the three items
"eu-article-1", "eu-article-2", "eu-article-3" in that order, with fixed title, source and
url, whose `PublishedAt` are the RFC 3339 renderings of the first clock reading minus 2
hours, of the second minus 4 hours and of the third minus 6 hours. When each reading is less
than two hours after the reading before it, the instants rendered are strictly decreasing
down the list. -/
theorem C9_regional_feeds_news (env : Env) (r : Request) :
    (regionalFeeds.response env r).News = some [
      ⟨GoString.lit "eu-article-1", GoString.lit "European Markets Rise Amid Economic Growth",
        GoString.lit "EU Financial Times", GoString.lit "https://example.com/eu/article1",
        env.FormatRFC3339 (env.Now 0 - 7200000000000)⟩,
      ⟨GoString.lit "eu-article-2", GoString.lit "New Climate Agreement Reached in Brussels",
        GoString.lit "EuroNews", GoString.lit "https://example.com/eu/article2",
        env.FormatRFC3339 (env.Now 1 - 14400000000000)⟩,
      ⟨GoString.lit "eu-article-3", GoString.lit "Tech Innovation Summit Draws Global Leaders",
        GoString.lit "European Tech Review", GoString.lit "https://example.com/eu/article3",
        env.FormatRFC3339 (env.Now 2 - 21600000000000)⟩ ] ∧
    (regionalFeeds.response env r).News.len = 3 ∧
    (regionalFeeds.response env r).News.items.map (fun n => n.ID) =
      [GoString.lit "eu-article-1", GoString.lit "eu-article-2", GoString.lit "eu-article-3"] ∧
    (regionalFeeds.response env r).News.items.map (fun n => n.PublishedAt) =
      (regionalFeeds.publishedInstants env).map env.FormatRFC3339 ∧
    regionalFeeds.publishedInstants env =
      [env.Now 0 - 2 * 3600000000000, env.Now 1 - 4 * 3600000000000,
        env.Now 2 - 6 * 3600000000000] ∧
    (∀ (env' : Env) (r' : Request), env'.Now = env.Now →
      env'.FormatRFC3339 = env.FormatRFC3339 →
      (regionalFeeds.response env' r').News = (regionalFeeds.response env r).News) ∧
    (env.Now 1 < env.Now 0 + 2 * 3600000000000 → env.Now 2 < env.Now 1 + 2 * 3600000000000 →
      List.Pairwise (fun a b => b < a) (regionalFeeds.publishedInstants env)) := by
  refine ⟨rfl, rfl, rfl, rfl, rfl, ?_, ?_⟩
  · intro env' r' hnow hfmt
    simp only [regionalFeeds.response, regionalFeeds.news, hnow, hfmt]
  · intro h1 h2
    simp only [regionalFeeds.publishedInstants, time.Add, time.Hour, List.pairwise_cons,
      List.mem_cons, List.mem_singleton, List.not_mem_nil, forall_eq_or_imp, forall_eq,
      false_imp_iff, implies_true, List.Pairwise.nil, and_true]
    omega

/-- C9 (amended) at a clock that advances by one millisecond per reading. -/
theorem C9_regional_feeds_news_witness :
    (Env.unreachable.Now 1 < Env.unreachable.Now 0 + 2 * 3600000000000 ∧
      Env.unreachable.Now 2 < Env.unreachable.Now 1 + 2 * 3600000000000) ∧
    List.Pairwise (fun a b => b < a) (regionalFeeds.publishedInstants Env.unreachable) ∧
    (regionalFeeds.response Env.unreachable
        ⟨GoString.lit "GET", GoString.lit "/regional-feeds", []⟩).News.items.map
        (fun n => n.PublishedAt) =
      [GoString.lit "2023-11-14T20:13:20Z", GoString.lit "2023-11-14T18:13:20Z",
        GoString.lit "2023-11-14T16:13:20Z"] :=
  ⟨⟨by decide, by decide⟩,
    (C9_regional_feeds_news Env.unreachable
      ⟨GoString.lit "GET", GoString.lit "/regional-feeds", []⟩).2.2.2.2.2.2 (by decide)
      (by decide),
    by decide⟩

/-! ## JSON round trip -/

theorem utf8.DecodeRune_ascii (b : Nat) (rest : GoString) (h : b < 0x80) :
    utf8.DecodeRune (b :: rest) = (b, 1) := by
  simp [utf8.DecodeRune, h]

/-- A valid string is marshalled as itself. -/
theorem json.coerceFrom_of_valid (fuel : Nat) (s : GoString)
    (h : utf8.validFrom fuel s = true) : json.coerceFrom fuel s = s := by
  induction fuel generalizing s with
  | zero =>
    cases s with
    | nil => rfl
    | cons b rest => simp [utf8.validFrom] at h
  | succ n ih =>
    cases s with
    | nil => rfl
    | cons b rest =>
      simp only [utf8.validFrom] at h
      by_cases herr : (utf8.DecodeRune (b :: rest)).1 = utf8.RuneError ∧
          (utf8.DecodeRune (b :: rest)).2 = 1
      · simp [herr] at h
      · simp only [herr, if_false] at h
        by_cases hb : b < 0x80
        · rw [utf8.DecodeRune_ascii b rest hb] at h
          simp only [List.drop_succ_cons, List.drop_zero] at h
          simp only [json.coerceFrom, hb, if_true, ih rest h]
        · simp only [json.coerceFrom, hb, herr, if_false, ih _ h, List.take_append_drop]

theorem json.marshalString_of_valid (s : GoString) (h : utf8.ValidString s = true) :
    json.marshalString s = .string s := by
  simp only [json.marshalString, json.coerceFrom_of_valid s.length s h]

theorem json.marshalFloat_of_finite (f : Float64) (h : f.isFinite = true) :
    json.marshalFloat f = .ok (.number f) := by
  simp only [Float64.isFinite, Bool.and_eq_true, Bool.not_eq_true'] at h
  simp [json.marshalFloat, h.1, h.2]

theorem Float64.eq_self_of_finite (f : Float64) (h : f.isFinite = true) :
    Float64.eq f f = true := by
  simp only [Float64.isFinite, Bool.and_eq_true, Bool.not_eq_true'] at h
  simp [Float64.eq, h.1]

theorem json.roundTripWeatherData_of_textAndFinite (fold : GoString → GoString)
    (w : WeatherData) (h : w.textAndFinite = true) :
    json.marshalWeatherData w =
      .ok (.object [(GoString.lit "summary", .string w.Summary),
        (GoString.lit "temperatureC", .number w.TemperatureC),
        (GoString.lit "feelsLikeC", .number w.FeelsLikeC)]) ∧
    ∀ dst : WeatherData, json.unmarshalWeatherData fold dst
      (.object [(GoString.lit "summary", .string w.Summary),
        (GoString.lit "temperatureC", .number w.TemperatureC),
        (GoString.lit "feelsLikeC", .number w.FeelsLikeC)]) = .ok w := by
  simp only [WeatherData.textAndFinite, Bool.and_eq_true] at h
  obtain ⟨⟨hs, ht⟩, hf⟩ := h
  have k0 : json.matchField fold json.weatherDataFields (GoString.lit "summary") = some 0 := rfl
  have k1 : json.matchField fold json.weatherDataFields (GoString.lit "temperatureC") = some 1 :=
    rfl
  have k2 : json.matchField fold json.weatherDataFields (GoString.lit "feelsLikeC") = some 2 :=
    rfl
  refine ⟨?_, ?_⟩
  · simp only [json.marshalWeatherData, json.marshalFloat_of_finite _ ht,
      json.marshalFloat_of_finite _ hf, json.marshalString_of_valid _ hs]
  · intro dst
    simp only [json.unmarshalWeatherData, json.decodeMembers, json.weatherDataMember, k0, k1, k2,
      json.unmarshalString, json.unmarshalFloat, Except.map]

theorem json.roundTripNewsItem_of_text (fold : GoString → GoString) (n : NewsItem)
    (h : n.text = true) (dst : NewsItem) :
    json.unmarshalNewsItem fold dst (json.marshalNewsItem n) = .ok n := by
  simp only [NewsItem.text, Bool.and_eq_true] at h
  obtain ⟨⟨⟨⟨h0, h1⟩, h2⟩, h3⟩, h4⟩ := h
  have k0 : json.matchField fold json.newsItemFields (GoString.lit "id") = some 0 := rfl
  have k1 : json.matchField fold json.newsItemFields (GoString.lit "title") = some 1 := rfl
  have k2 : json.matchField fold json.newsItemFields (GoString.lit "source") = some 2 := rfl
  have k3 : json.matchField fold json.newsItemFields (GoString.lit "url") = some 3 := rfl
  have k4 : json.matchField fold json.newsItemFields (GoString.lit "publishedAt") = some 4 := rfl
  simp only [json.marshalNewsItem, json.marshalString_of_valid _ h0,
    json.marshalString_of_valid _ h1, json.marshalString_of_valid _ h2,
    json.marshalString_of_valid _ h3, json.marshalString_of_valid _ h4,
    json.unmarshalNewsItem, json.decodeMembers, json.newsItemMember, k0, k1, k2, k3, k4,
    json.unmarshalString, Except.map]

theorem json.roundTripNewsItems_of_text (fold : GoString → GoString) (ns : List NewsItem)
    (h : ns.all NewsItem.text = true) :
    json.unmarshalNewsItems fold (ns.map json.marshalNewsItem) = .ok ns := by
  induction ns with
  | nil => rfl
  | cons n rest ih =>
    simp only [List.all_cons, Bool.and_eq_true] at h
    simp only [List.map_cons, json.unmarshalNewsItems,
      json.roundTripNewsItem_of_text fold n h.1, ih h.2]

theorem GoSlice.some_items_of_len_ne_zero {α : Type} (s : GoSlice α) (h : s.len ≠ 0) :
    some s.items = s := by
  cases s with
  | none => simp [GoSlice.len, GoSlice.items] at h
  | some l => rfl

theorem json.roundTripRegionalFeedResponse_of_textAndFinite (fold : GoString → GoString)
    (r : RegionalFeedResponse) (h : r.textAndFinite = true) :
    json.roundTripRegionalFeedResponse fold r =
      .ok { r with News := if r.News.len = 0 then none else r.News } := by
  obtain ⟨region, country, weather, news⟩ := r
  simp only [RegionalFeedResponse.textAndFinite, Bool.and_eq_true] at h
  obtain ⟨⟨⟨hr, hc⟩, hw⟩, hn⟩ := h
  have k0 : json.matchField fold json.regionalFeedResponseFields (GoString.lit "region") =
    some 0 := rfl
  have k1 : json.matchField fold json.regionalFeedResponseFields (GoString.lit "country") =
    some 1 := rfl
  have k2 : json.matchField fold json.regionalFeedResponseFields (GoString.lit "weather") =
    some 2 := rfl
  have k3 : json.matchField fold json.regionalFeedResponseFields (GoString.lit "news") =
    some 3 := rfl
  have hitems := json.roundTripNewsItems_of_text fold news.items hn
  cases weather with
  | none =>
    by_cases hlen : news.len = 0
    · simp only [json.roundTripRegionalFeedResponse, json.marshalRegionalFeedResponse, hlen,
        if_true, List.append_nil, json.marshalString_of_valid _ hr,
        json.marshalString_of_valid _ hc, json.unmarshalRegionalFeedResponse,
        json.decodeMembers, json.regionalFeedResponseMember, k0, k1, json.unmarshalString,
        Except.map, RegionalFeedResponse.zero]
    · simp only [json.roundTripRegionalFeedResponse, json.marshalRegionalFeedResponse, hlen,
        if_false, List.cons_append, List.nil_append, json.marshalString_of_valid _ hr,
        json.marshalString_of_valid _ hc, json.unmarshalRegionalFeedResponse,
        json.decodeMembers, json.regionalFeedResponseMember, k0, k1, k3, json.unmarshalString,
        Except.map, RegionalFeedResponse.zero, hitems,
        GoSlice.some_items_of_len_ne_zero news hlen]
  | some w =>
    obtain ⟨hm, hu⟩ := json.roundTripWeatherData_of_textAndFinite fold w hw
    by_cases hlen : news.len = 0
    · simp only [json.roundTripRegionalFeedResponse, json.marshalRegionalFeedResponse, hlen,
        if_true, List.append_nil, json.marshalString_of_valid _ hr,
        json.marshalString_of_valid _ hc, json.unmarshalRegionalFeedResponse,
        json.decodeMembers, json.regionalFeedResponseMember, k0, k1, k2, json.unmarshalString,
        Except.map, RegionalFeedResponse.zero, hm, hu]
    · simp only [json.roundTripRegionalFeedResponse, json.marshalRegionalFeedResponse, hlen,
        if_false, List.cons_append, List.nil_append, json.marshalString_of_valid _ hr,
        json.marshalString_of_valid _ hc, json.unmarshalRegionalFeedResponse,
        json.decodeMembers, json.regionalFeedResponseMember, k0, k1, k2, k3,
        json.unmarshalString, Except.map, RegionalFeedResponse.zero, hm, hu, hitems,
        GoSlice.some_items_of_len_ne_zero news hlen]

theorem RegionalFeedResponse.fieldEq_of_textAndFinite (r : RegionalFeedResponse)
    (h : r.textAndFinite = true) :
    RegionalFeedResponse.fieldEq { r with News := if r.News.len = 0 then none else r.News } r =
      true := by
  obtain ⟨region, country, weather, news⟩ := r
  have hnews : ((if news.len = 0 then none else news : GoSlice NewsItem).len = news.len) ∧
      ((if news.len = 0 then none else news : GoSlice NewsItem).items = news.items) := by
    by_cases hlen : news.len = 0
    · cases news with
      | none => simp [GoSlice.len, GoSlice.items]
      | some l =>
        have hl : l = [] := by simpa [GoSlice.len, GoSlice.items] using hlen
        simp [GoSlice.len, GoSlice.items, hl]
    · simp [hlen]
  cases weather with
  | none => simp [RegionalFeedResponse.fieldEq, hnews.1, hnews.2]
  | some w =>
    simp only [RegionalFeedResponse.textAndFinite, WeatherData.textAndFinite,
      Bool.and_eq_true] at h
    obtain ⟨⟨⟨_, _⟩, ⟨⟨_, ht⟩, hf⟩⟩, _⟩ := h
    simp [RegionalFeedResponse.fieldEq, WeatherData.fieldEq, hnews.1, hnews.2,
      Float64.eq_self_of_finite _ ht, Float64.eq_self_of_finite _ hf]

/-- C7 as stated fails on two kinds of values. A `WeatherData` whose temperature is NaN does
not marshal at all (`json: unsupported value: NaN`), so there is nothing to unmarshal. A
`RegionalFeedResponse` whose Region is the one-byte string "\xff", which is not valid UTF-8,
marshals, and comes back with Region U+FFFD (bytes EF BF BD): not equal field for field. -/
theorem C7_json_round_trip_counterexample :
    json.roundTripWeatherData json.foldASCII
        ⟨GoString.lit "Clear sky", Float64.ofBits 0x7FF8000000000001,
          Float64.ofDecimal false 24 0⟩ =
      .error (GoString.lit "json: unsupported value: NaN") ∧
    json.roundTripRegionalFeedResponse json.foldASCII
        ⟨GoString.lit "EU", GoString.lit "BR",
          some ⟨GoString.lit "Clear sky", Float64.ofBits 0x7FF8000000000001,
            Float64.ofDecimal false 24 0⟩, none⟩ =
      .error (GoString.lit "json: unsupported value: NaN") ∧
    json.roundTripRegionalFeedResponse json.foldASCII ⟨[0xFF], GoString.lit "JP", none, none⟩ =
      .ok ⟨[0xEF, 0xBF, 0xBD], GoString.lit "JP", none, none⟩ ∧
    RegionalFeedResponse.fieldEq ⟨[0xEF, 0xBF, 0xBD], GoString.lit "JP", none, none⟩
      ⟨[0xFF], GoString.lit "JP", none, none⟩ = false := by
  refine ⟨by decide, by decide, by decide, by decide⟩

/-- C7, amended. For every `RegionalFeedResponse` whose strings are valid UTF-8 and whose
weather record, when set, has finite floats, unmarshalling the result of marshalling it
succeeds and yields a value equal to the original field for field: same Region, Country and
Weather, and News with the same length, order and items (a News of length 0 comes back as
the nil slice). The same holds for a `WeatherData` on its own whose Summary is valid UTF-8
and whose floats are finite: it comes back unchanged. This holds whatever the case folding
of names, since every key written by Marshal is the exact name of a field. -/
theorem C7_json_round_trip (fold : GoString → GoString) (r : RegionalFeedResponse)
    (w : WeatherData) (hr : r.textAndFinite = true) (hw : w.textAndFinite = true) :
    (json.roundTripWeatherData fold w = .ok w ∧ w.fieldEq w = true) ∧
    ∃ r', json.roundTripRegionalFeedResponse fold r = .ok r' ∧
      r'.fieldEq r = true ∧
      r'.Region = r.Region ∧ r'.Country = r.Country ∧ r'.Weather = r.Weather ∧
      r'.News.len = r.News.len ∧ r'.News.items = r.News.items ∧
      r'.News = (if r.News.len = 0 then none else r.News) := by
  have hfe := RegionalFeedResponse.fieldEq_of_textAndFinite r hr
  refine ⟨⟨?_, ?_⟩, _, json.roundTripRegionalFeedResponse_of_textAndFinite fold r hr, hfe,
    rfl, rfl, rfl, ?_, ?_, rfl⟩
  · obtain ⟨hm, hu⟩ := json.roundTripWeatherData_of_textAndFinite fold w hw
    simp only [json.roundTripWeatherData, hm, hu]
  · simp only [WeatherData.textAndFinite, Bool.and_eq_true] at hw
    simp [WeatherData.fieldEq, Float64.eq_self_of_finite _ hw.1.2,
      Float64.eq_self_of_finite _ hw.2]
  · simp only [RegionalFeedResponse.fieldEq, Bool.and_eq_true, decide_eq_true_eq] at hfe
    exact hfe.1.2
  · simp only [RegionalFeedResponse.fieldEq, Bool.and_eq_true, decide_eq_true_eq] at hfe
    exact hfe.2

/-- C7 (amended) at the values of `TestWeatherDataSerialization` and
`TestRegionalFeedResponseSerialization`. -/
theorem C7_json_round_trip_witness :
    (RegionalFeedResponse.textAndFinite ⟨GoString.lit "ASIA", GoString.lit "JP", none,
        some [⟨GoString.lit "asia-1", GoString.lit "Test News", GoString.lit "Test Source",
          GoString.lit "https://example.com", GoString.lit "2024-01-01T00:00:00Z"⟩]⟩ = true ∧
      WeatherData.textAndFinite ⟨GoString.lit "Clear sky", Float64.ofDecimal false 255 1,
        Float64.ofDecimal false 240 1⟩ = true) ∧
    json.roundTripWeatherData json.foldASCII ⟨GoString.lit "Clear sky",
        Float64.ofDecimal false 255 1, Float64.ofDecimal false 240 1⟩ =
      .ok ⟨GoString.lit "Clear sky", Float64.ofDecimal false 255 1,
        Float64.ofDecimal false 240 1⟩ ∧
    ∃ r', json.roundTripRegionalFeedResponse json.foldASCII
        ⟨GoString.lit "ASIA", GoString.lit "JP", none,
          some [⟨GoString.lit "asia-1", GoString.lit "Test News", GoString.lit "Test Source",
            GoString.lit "https://example.com", GoString.lit "2024-01-01T00:00:00Z"⟩]⟩ =
          .ok r' ∧
      r'.Region = GoString.lit "ASIA" ∧ r'.Country = GoString.lit "JP" ∧ r'.News.len = 1 := by
  obtain ⟨⟨hw, _⟩, r', hr', _, hreg, hcountry, _, hlen, _, _⟩ :=
    C7_json_round_trip json.foldASCII
      ⟨GoString.lit "ASIA", GoString.lit "JP", none,
        some [⟨GoString.lit "asia-1", GoString.lit "Test News", GoString.lit "Test Source",
          GoString.lit "https://example.com", GoString.lit "2024-01-01T00:00:00Z"⟩]⟩
      ⟨GoString.lit "Clear sky", Float64.ofDecimal false 255 1, Float64.ofDecimal false 240 1⟩
      (by decide) (by decide)
  exact ⟨⟨by decide, by decide⟩, hw, r', hr', hreg, hcountry, hlen⟩

/-! ## The offline gate -/

theorem http.Error_of_fresh (w : ResponseWriter) (error : GoString) (code : Int)
    (h : w.status = none) :
    (http.Error w error code).status = some code ∧
    (http.Error w error code).body = w.body ++ [Chunk.bytes (error ++ GoString.lit "\n")] := by
  simp [http.Error, ResponseWriter.Write, ResponseWriter.WriteHeader, ResponseWriter.SetHeader,
    ResponseWriter.DelHeader, h]

theorem offlineGate_of_offline (env : Env) (next : Handler) (r : Request) (x : Exchange)
    (hpath : r.Path ≠ GoString.lit "/health" ∧ r.Path ≠ GoString.lit "/ready")
    (hoff : env.Offline = true) :
    offlineGate env next r x =
      { x with w := http.Error x.w (GoString.lit "service temporarily offline") 503 } := by
  simp [offlineGate, hpath.1, hpath.2, hoff]

theorem offlineGate_of_online (env : Env) (next : Handler) (r : Request) (x : Exchange)
    (hoff : env.Offline = false) : offlineGate env next r x = next r x := by
  by_cases hp : r.Path = GoString.lit "/health" ∨ r.Path = GoString.lit "/ready"
  · simp [offlineGate, hp]
  · simp [offlineGate, hp, hoff]

/-- C11. Offline kill switch, for a request whose path is neither "/health" nor "/ready".
With the offline flag enabled the gate answers by `http.Error` with the message "service
temporarily offline" and status 503 (on a writer with no header written: status 503, body
the message and a newline); the outcome is the same whatever the next handler, which is not
invoked, and no outbound GET is made. With the flag disabled the outcome is that of the next
handler applied once to the request: the gate writes nothing itself. The gate itself answers
503 exactly when the flag is enabled. -/
theorem C11_offline_gate_kill_switch (env : Env) (r : Request)
    (hpath : r.Path ≠ GoString.lit "/health" ∧ r.Path ≠ GoString.lit "/ready") :
    (env.Offline = true →
      (∀ (next : Handler) (x : Exchange),
        offlineGate env next r x =
          { x with w := http.Error x.w (GoString.lit "service temporarily offline") 503 } ∧
        (offlineGate env next r x).calls = x.calls ∧
        (offlineGate env next r x).log = x.log ∧
        (x.w.status = none →
          (offlineGate env next r x).w.status = some 503 ∧
          (offlineGate env next r x).w.body =
            x.w.body ++ [Chunk.bytes (GoString.lit "service temporarily offline" ++
              GoString.lit "\n")])) ∧
      (∀ (next next' : Handler) (x : Exchange),
        offlineGate env next r x = offlineGate env next' r x) ∧
      (offlineGate env probeHandler r Exchange.fresh).log = [] ∧
      (offlineGate env (regionalFeedsHandler env) r Exchange.fresh).calls = []) ∧
    (env.Offline = false →
      (∀ (next : Handler) (x : Exchange), offlineGate env next r x = next r x) ∧
      (offlineGate env probeHandler r Exchange.fresh).log = [⟨GoString.lit "probe", r.Path⟩] ∧
      (offlineGate env probeHandler r Exchange.fresh).w.status = none ∧
      (offlineGate env (regionalFeedsHandler env) r Exchange.fresh).calls =
        (FetchWeather env (regionalFeeds.country r)).calls) ∧
    ((offlineGate env probeHandler r Exchange.fresh).w.status = some 503 ↔
      env.Offline = true) := by
  refine ⟨?_, ?_, ?_⟩
  · intro hoff
    refine ⟨?_, ?_, ?_, ?_⟩
    · intro next x
      rw [offlineGate_of_offline env next r x hpath hoff]
      refine ⟨rfl, rfl, rfl, ?_⟩
      intro hfresh
      exact http.Error_of_fresh x.w _ 503 hfresh
    · intro next next' x
      rw [offlineGate_of_offline env next r x hpath hoff,
        offlineGate_of_offline env next' r x hpath hoff]
    · rw [offlineGate_of_offline env probeHandler r Exchange.fresh hpath hoff]
      rfl
    · rw [offlineGate_of_offline env (regionalFeedsHandler env) r Exchange.fresh hpath hoff]
      rfl
  · intro hoff
    refine ⟨fun next x => offlineGate_of_online env next r x hoff, ?_, ?_, ?_⟩
    · rw [offlineGate_of_online env probeHandler r Exchange.fresh hoff]
      rfl
    · rw [offlineGate_of_online env probeHandler r Exchange.fresh hoff]
      rfl
    · rw [offlineGate_of_online env (regionalFeedsHandler env) r Exchange.fresh hoff]
      simp only [regionalFeedsHandler]
      cases (FetchWeather env (regionalFeeds.country r)).err <;>
        cases json.marshalRegionalFeedResponse _ <;>
          simp [Exchange.logf, Exchange.fresh]
  · constructor
    · intro h503
      cases hoff : env.Offline with
      | true => rfl
      | false =>
        rw [offlineGate_of_online env probeHandler r Exchange.fresh hoff] at h503
        exact absurd h503 (by simp [probeHandler, Exchange.logf, Exchange.fresh,
          ResponseWriter.fresh])
    · intro hoff
      rw [offlineGate_of_offline env probeHandler r Exchange.fresh hpath hoff]
      exact (http.Error_of_fresh _ _ 503 rfl).1

/-- C11 at a GET of "/regional-feeds" against a provider that would answer: with the flag
enabled the server answers 503 "service temporarily offline" and issues no GET; with the flag
disabled the handler runs and issues its GET. -/
theorem C11_offline_gate_kill_switch_witness :
    ((GoString.lit "/regional-feeds" ≠ GoString.lit "/health" ∧
        GoString.lit "/regional-feeds" ≠ GoString.lit "/ready") ∧
      ({ Env.unreachable with Offline := true } : Env).Offline = true ∧
      Env.unreachable.Offline = false) ∧
    ((offlineGate { Env.unreachable with Offline := true }
        (regionalFeedsHandler { Env.unreachable with Offline := true })
        ⟨GoString.lit "GET", GoString.lit "/regional-feeds", []⟩ Exchange.fresh).w.status =
        some 503 ∧
      (offlineGate { Env.unreachable with Offline := true }
        (regionalFeedsHandler { Env.unreachable with Offline := true })
        ⟨GoString.lit "GET", GoString.lit "/regional-feeds", []⟩ Exchange.fresh).w.body =
        [Chunk.bytes (GoString.lit "service temporarily offline" ++ GoString.lit "\n")]) ∧
    (offlineGate { Env.unreachable with Offline := true }
      (regionalFeedsHandler { Env.unreachable with Offline := true })
      ⟨GoString.lit "GET", GoString.lit "/regional-feeds", []⟩ Exchange.fresh).calls = [] ∧
    (serveHTTP { Env.unreachable with Offline := true }
      ⟨GoString.lit "GET", GoString.lit "/regional-feeds", []⟩ Exchange.fresh).w.bodyBytes =
      some (GoString.lit "service temporarily offline\n") ∧
    offlineGate Env.unreachable probeHandler
        ⟨GoString.lit "GET", GoString.lit "/regional-feeds", []⟩ Exchange.fresh =
      probeHandler ⟨GoString.lit "GET", GoString.lit "/regional-feeds", []⟩ Exchange.fresh ∧
    (offlineGate Env.unreachable probeHandler
      ⟨GoString.lit "GET", GoString.lit "/regional-feeds", []⟩ Exchange.fresh).log =
      [⟨GoString.lit "probe", GoString.lit "/regional-feeds"⟩] :=
  ⟨⟨⟨by decide, by decide⟩, rfl, rfl⟩,
    (((C11_offline_gate_kill_switch { Env.unreachable with Offline := true }
      ⟨GoString.lit "GET", GoString.lit "/regional-feeds", []⟩ ⟨by decide, by decide⟩).1 rfl).1
      (regionalFeedsHandler { Env.unreachable with Offline := true }) Exchange.fresh).2.2.2 rfl,
    (((C11_offline_gate_kill_switch { Env.unreachable with Offline := true }
      ⟨GoString.lit "GET", GoString.lit "/regional-feeds", []⟩ ⟨by decide, by decide⟩).1 rfl).1
      (regionalFeedsHandler { Env.unreachable with Offline := true }) Exchange.fresh).2.1,
    by decide,
    ((C11_offline_gate_kill_switch Env.unreachable
      ⟨GoString.lit "GET", GoString.lit "/regional-feeds", []⟩ ⟨by decide, by decide⟩).2.1 rfl).1
      probeHandler Exchange.fresh,
    ((C11_offline_gate_kill_switch Env.unreachable
      ⟨GoString.lit "GET", GoString.lit "/regional-feeds", []⟩ ⟨by decide, by decide⟩).2.1
      rfl).2.1⟩

/-! ## Status codes other than 200 -/

/-- C12. `FetchWeather` accepts a provider response only when its status code is exactly 200.
For every other status code (201 and 204 included) it returns a nil record and the error
"weather API returned status <code>". The body is not read: the outcome is the same whatever
the body of the response and whatever the decoder would make of it, a well-formed forecast
included. -/
theorem C12_fetchWeather_rejects_status_other_than_200 (env : Env) (country : GoString)
    (resp : HTTPResponse)
    (hget : env.Get (FetchWeather.url (FetchWeather.coords country)) = .ok resp)
    (hstatus : resp.StatusCode ≠ 200) :
    (FetchWeather env country).data = none ∧
    (FetchWeather env country).err =
      some (GoString.lit "weather API returned status " ++ fmt.int resp.StatusCode) ∧
    (FetchWeather env country).err ≠ none ∧
    (∀ (env' : Env) (body : GoString),
      env'.Get (FetchWeather.url (FetchWeather.coords country)) =
        .ok ⟨resp.StatusCode, body⟩ →
      FetchWeather env' country = FetchWeather env country) ∧
    (∀ apiResp : OpenMeteoResponse, env.Decode resp.Body = .ok apiResp →
      (FetchWeather env country).data = none ∧ (FetchWeather env country).err ≠ none) := by
  have hf := FetchWeather_of_status env country resp hget hstatus
  refine ⟨by rw [hf], by rw [hf], by rw [hf]; simp, ?_, ?_⟩
  · intro env' body hget'
    rw [hf, FetchWeather_of_status env' country ⟨resp.StatusCode, body⟩ hget' hstatus]
  · intro apiResp _
    rw [hf]
    exact ⟨rfl, by simp⟩

/-- C12 at a provider answering 201, and one answering 204, with a body that decodes as a
forecast: a nil record and the status error each time, where the same body under status 200
gives a record. -/
theorem C12_fetchWeather_rejects_status_other_than_200_witness :
    ((FetchWeather (Env.answering 201 (GoString.lit "forecast")
        (.ok ⟨Float64.ofDecimal false 255 1, Float64.ofDecimal false 24 0, 0⟩))
        (GoString.lit "BR")).data = none ∧
      (FetchWeather (Env.answering 201 (GoString.lit "forecast")
        (.ok ⟨Float64.ofDecimal false 255 1, Float64.ofDecimal false 24 0, 0⟩))
        (GoString.lit "BR")).err =
        some (GoString.lit "weather API returned status " ++ fmt.int 201)) ∧
    ((FetchWeather (Env.answering 204 [] (.ok ⟨Float64.ofDecimal false 255 1,
        Float64.ofDecimal false 24 0, 0⟩)) (GoString.lit "BR")).data = none ∧
      (FetchWeather (Env.answering 204 [] (.ok ⟨Float64.ofDecimal false 255 1,
        Float64.ofDecimal false 24 0, 0⟩)) (GoString.lit "BR")).err ≠ none) ∧
    GoString.lit "weather API returned status " ++ fmt.int 201 =
      GoString.lit "weather API returned status 201" ∧
    (FetchWeather (Env.answering 200 (GoString.lit "forecast")
      (.ok ⟨Float64.ofDecimal false 255 1, Float64.ofDecimal false 24 0, 0⟩))
      (GoString.lit "BR")).data =
      some ⟨GoString.lit "Clear sky", Float64.ofDecimal false 255 1,
        Float64.ofDecimal false 24 0⟩ :=
  ⟨⟨(C12_fetchWeather_rejects_status_other_than_200
        (Env.answering 201 (GoString.lit "forecast")
          (.ok ⟨Float64.ofDecimal false 255 1, Float64.ofDecimal false 24 0, 0⟩))
        (GoString.lit "BR") ⟨201, GoString.lit "forecast"⟩ rfl (by decide)).1,
      (C12_fetchWeather_rejects_status_other_than_200
        (Env.answering 201 (GoString.lit "forecast")
          (.ok ⟨Float64.ofDecimal false 255 1, Float64.ofDecimal false 24 0, 0⟩))
        (GoString.lit "BR") ⟨201, GoString.lit "forecast"⟩ rfl (by decide)).2.1⟩,
    ⟨(C12_fetchWeather_rejects_status_other_than_200
        (Env.answering 204 [] (.ok ⟨Float64.ofDecimal false 255 1,
          Float64.ofDecimal false 24 0, 0⟩)) (GoString.lit "BR") ⟨204, []⟩ rfl (by decide)).1,
      (C12_fetchWeather_rejects_status_other_than_200
        (Env.answering 204 [] (.ok ⟨Float64.ofDecimal false 255 1,
          Float64.ofDecimal false 24 0, 0⟩)) (GoString.lit "BR") ⟨204, []⟩ rfl
        (by decide)).2.2.1⟩,
    by decide, by decide⟩

end ReefSA
